import Mathlib

/-!
Shallow embedding of the toxcore group-chat module (src/toxcore/group_chats.c)
for checking the natural-language specification against the code.

Byte buffers are modelled as `List Nat`, machine integers as `Nat` with explicit
bounds or `% 2 ^ w` where overflow matters, and C functions returning negative
error codes as functions into `Int` (paired with the updated state for stateful
code).  Cryptographic primitives (libsodium) and fixed-layout record packing
live outside the repository; they are modelled symbolically: a detached
signature is the pair of the signing key and the signed record (packing of
fixed-field records is injective, so signing the record itself is faithful),
and authenticated symmetric encryption prepends a 16-byte tag computed from the
key, the nonce and the plaintext.  Where the source checks the result of a
fallible external call (crypto_sign_detached), the call's outcome is threaded
in as an explicit `CryptoEnv` oracle.
-/

set_option linter.unusedVariables false

namespace GC

/-! ### Constants from group_chats.c -/

def MAX_GC_PACKET_SIZE : Nat := 65507
def GC_MAX_PACKET_PADDING : Nat := 8
def HASH_ID_BYTES : Nat := 4
def ENC_PUBLIC_KEY : Nat := 32
def SIG_PUBLIC_KEY : Nat := 32
def SIGNATURE_SIZE : Nat := 64
def crypto_box_NONCEBYTES : Nat := 24
def crypto_box_MACBYTES : Nat := 16
def MESSAGE_ID_BYTES : Nat := 8
def TIME_STAMP_SIZE : Nat := 8
def GC_BROADCAST_ENC_HEADER_SIZE : Nat := 1 + HASH_ID_BYTES + TIME_STAMP_SIZE
def GC_PING_PACKET_DATA_SIZE : Nat := 4 * 4
def GC_NEW_PEER_CONNECTION_LIMIT : Nat := 10
def UINT32_MAX : Nat := 4294967295

/-- Modelled from the spec: the constants below live in headers that are not in
src/ (group_chats.h, group_connection.h, group_moderation.h).  Values follow
the spec: nick and part message 128 bytes, group name 1 to 48 bytes, password
at most 32 bytes, topic at most 512 bytes, plain message at most 1372 bytes,
at most 128 moderators, a 64-slot lossless window, 10 confirmed-peer slots. -/
def MAX_GC_NICK_SIZE : Nat := 128
def MAX_GC_GROUP_NAME_SIZE : Nat := 48
def MAX_GC_PASSWD_SIZE : Nat := 32
def MAX_GC_TOPIC_SIZE : Nat := 512
def MAX_GC_MESSAGE_SIZE : Nat := 1372
def MAX_GC_MODERATORS : Nat := 128
def GCC_BUFFER_SIZE : Nat := 64

/-- Modelled from the spec: outer packet kind constants (group_chats.h is not
in src/); the spec gives LOSSLESS as an implementation-assigned constant with
nominal value 0x5A.  Only equality tests on these values occur in the code. -/
def NET_PACKET_GC_LOSSLESS : Nat := 90
def NET_PACKET_GC_LOSSY : Nat := 91
def NET_PACKET_GC_HANDSHAKE : Nat := 92

/-- Modelled from the spec: inner packet kinds (group_chats.h is not in src/).
The spec lists nineteen inner kinds and requires the decoder to recover the
padding length by stripping leading zero bytes up to the first nonzero byte
(the inner kind), so every inner kind is nonzero; values are assigned in the
spec's order. -/
def GP_PING : Nat := 1
def GP_MESSAGE_ACK : Nat := 2
def GP_INVITE_REQUEST : Nat := 3
def GP_INVITE_RESPONSE : Nat := 4
def GP_INVITE_RESPONSE_REJECT : Nat := 5
def GP_SYNC_REQUEST : Nat := 6
def GP_SYNC_RESPONSE : Nat := 7
def GP_TOPIC : Nat := 8
def GP_SHARED_STATE : Nat := 9
def GP_MOD_LIST : Nat := 10
def GP_SANCTIONS_LIST : Nat := 11
def GP_HS_RESPONSE_ACK : Nat := 12
def GP_PEER_INFO_REQUEST : Nat := 13
def GP_PEER_INFO_RESPONSE : Nat := 14
def GP_PEER_ANNOUNCE : Nat := 15
def GP_TCP_RELAYS : Nat := 16
def GP_IP_PORT : Nat := 17
def GP_CUSTOM_PACKET : Nat := 18
def GP_BROADCAST : Nat := 19

/-- Roles.  The numeric order is forced by the comparisons in the source
(role > GR_MODERATOR means insufficient permission, role >= GR_OBSERVER means
observer or lower): Founder < Moderator < User < Observer < Invalid. -/
def GR_FOUNDER : Nat := 0
def GR_MODERATOR : Nat := 1
def GR_USER : Nat := 2
def GR_OBSERVER : Nat := 3
def GR_INVALID : Nat := 4

/-- Privacy states; the source only tests equality with GI_PUBLIC / GI_PRIVATE
and the bound GI_INVALID. -/
def GI_PUBLIC : Nat := 0
def GI_PRIVATE : Nat := 1
def GI_INVALID : Nat := 2

/-- Peer status bound (gc_set_self_status checks status < GS_INVALID). -/
def GS_INVALID : Nat := 3

/-- Connection states of a chat. -/
def CS_NONE : Nat := 0
def CS_DISCONNECTED : Nat := 1
def CS_CONNECTING : Nat := 2
def CS_CONNECTED : Nat := 3
def CS_FAILED : Nat := 4

/-- Join types. -/
def HJ_PUBLIC : Nat := 0
def HJ_PRIVATE : Nat := 1

/-- Group message types (gc_send_message only tests equality on the two
values). -/
def GC_MESSAGE_TYPE_NORMAL : Nat := 0
def GC_MESSAGE_TYPE_ACTION : Nat := 1

/-- Handshake request types (GROUP_HANDSHAKE_REQUEST_TYPE enum in the
source). -/
def HS_INVITE_REQUEST : Nat := 0
def HS_PEER_INFO_EXCHANGE : Nat := 1

/-! ### Public keys and the lexicographic comparison id_cmp -/

/-- Modelled from the spec: id_cmp comes from util.h which is not in src/; it
is the memcmp-style lexicographic comparison of two equal-length public keys,
returning a negative, zero or positive value. -/
def id_cmp : List Nat → List Nat → Int
  | [], [] => 0
  | [], _ :: _ => -1
  | _ :: _, [] => 1
  | a :: as, b :: bs => if a < b then -1 else if b < a then 1 else id_cmp as bs

/-! ### C1: simultaneous-connect tie-break

The two code paths that decide which side of a completed handshake sends the
follow-up invite request, taken verbatim from the source. -/

/-- Decision made by the initiator in handle_gc_handshake_response, case
HS_INVITE_REQUEST (group_chats.c:4295): the initiator stays silent when the
responder's advertised shared-state version is lower than its own sent one, or
the versions are equal and the initiator's public key compares greater;
otherwise it sends the invite request.  Arguments: the version read from the
handshake response (gconn->friend_shared_state_version), the version this side
sent (gconn->self_sent_shared_state_version), this side's public key
(chat->self_public_key) and the remote's (gconn->addr.public_key). -/
def handle_gc_handshake_response_sends_invite (friend_version self_sent_version : Nat)
    (self_public_key other_public_key : List Nat) : Bool :=
  if friend_version < self_sent_version ∨
      (friend_version = self_sent_version ∧ 0 < id_cmp self_public_key other_public_key) then
    false
  else
    true

/-- Decision made by the responder in handle_gc_hs_response_ack
(group_chats.c:3952): the responder sends the invite request when the
initiator's advertised version is greater than its own sent one, or the
versions are equal and the responder's public key compares greater. -/
def handle_gc_hs_response_ack_sends_invite (friend_version self_sent_version : Nat)
    (self_public_key other_public_key : List Nat) : Bool :=
  if self_sent_version < friend_version ∨
      (friend_version = self_sent_version ∧ 0 < id_cmp self_public_key other_public_key) then
    true
  else
    false

/-! ### C6: two-ping sync rule -/

/-- Sync information carried by a ping packet, and the receiver's own values it
is compared against: confirmed peer count, shared-state version, sanctions
credentials version, topic version. -/
structure GC_PingData where
  num_peers : Nat
  sstate_version : Nat
  screds_version : Nat
  topic_version : Nat
deriving Repr, DecidableEq, Inhabited

/-- Condition from do_gc_peer_state_sync (group_chats.c:1639): any of the
sender's four reported values exceeds ours. -/
def gc_versions_behind (ours theirs : GC_PingData) : Bool :=
  decide (ours.num_peers < theirs.num_peers ∨ ours.sstate_version < theirs.sstate_version ∨
    ours.screds_version < theirs.screds_version ∨ ours.topic_version < theirs.topic_version)

/-- Mirror of do_gc_peer_state_sync (group_chats.c:1626).  Input: our four
values, the sender's four values, the connection's pending_state_sync flag and
the packet data length.  Output: the new pending_state_sync flag and whether a
SyncRequest was sent on this call. -/
def do_gc_peer_state_sync (ours theirs : GC_PingData) (pending_state_sync : Bool)
    (length : Nat) : Bool × Bool :=
  if length ≠ GC_PING_PACKET_DATA_SIZE then
    (pending_state_sync, false)
  else if gc_versions_behind ours theirs then
    if pending_state_sync then
      (false, true)
    else
      (true, false)
  else
    (false, false)

/-- Processing of a sequence of pings through do_gc_peer_state_sync, starting
from a given pending_state_sync flag; yields, for each ping, whether a
SyncRequest was issued when it was handled. -/
def ping_trace (ours : GC_PingData) : Bool → List GC_PingData → List Bool
  | _, [] => []
  | pending, p :: ps =>
    let r := do_gc_peer_state_sync ours p pending GC_PING_PACKET_DATA_SIZE
    r.2 :: ping_trace ours r.1 ps

/-! ### Data model: keys, signatures, shared state, topic, moderation, peers -/

/-- Extended key: encryption half plus signing half (32 + 32 bytes in the
source).  Keys are modelled as abstract numeric identifiers; SIG_PK of an
extended key is its sig field.  A keypair is modelled with the public and the
secret half carrying the same identifier, so signing with the secret half
produces a signature that verifies under the public half. -/
structure ExtKey where
  enc : Nat
  sig : Nat
deriving Repr, DecidableEq, Inhabited

/-- Founder-signed group configuration (GC_SharedState).  The moderator-list
hash is modelled as the packed list itself (the hash function lives in the
missing group_moderation.c; no claim depends on collisions). -/
structure GC_SharedState where
  founder_public_key : ExtKey
  maxpeers : Nat
  group_name : List Nat
  group_name_len : Nat
  privacy_state : Nat
  passwd : List Nat
  passwd_len : Nat
  mod_list_hash : List Nat
  version : Nat
deriving Repr, DecidableEq

/-- Topic bytes, setter's signing key, version (GC_TopicInfo). -/
structure GC_TopicInfo where
  topic : List Nat
  length : Nat
  public_sig_key : Nat
  version : Nat
deriving Repr, DecidableEq

/-- Symbolic detached signature over a packed shared state: the signing key
together with the signed record. -/
structure SharedStateSig where
  signer : Nat
  content : GC_SharedState
deriving Repr, DecidableEq

/-- Symbolic detached signature over a packed topic. -/
structure TopicSig where
  signer : Nat
  content : GC_TopicInfo
deriving Repr, DecidableEq

/-- Modelled from the spec: sanction records live in the missing
group_moderation.c.  A sanction carries its issuer's signing public key, an
opaque payload (observer key or ban info) and the issuer's signature over the
payload. -/
structure GC_Sanction where
  public_sig_key : Nat
  payload : Nat
  sig_signer : Nat
deriving Repr, DecidableEq

/-- Modelled from the spec: sanctions credentials (missing
group_moderation.c): a running version, a checksum over the list (modelled as
the list itself), and the last editor's key and signature. -/
structure GC_SanctionCreds where
  version : Nat
  checksum : List GC_Sanction
  sig_pk : Nat
  sig_signer : Nat
deriving Repr, DecidableEq

structure GC_Moderation where
  mod_list : List Nat
  sanctions : List GC_Sanction
  sanctions_creds : GC_SanctionCreds
deriving Repr, DecidableEq

/-- Per-group peer entry (GC_GroupPeer). -/
structure GC_GroupPeer where
  nick : List Nat
  nick_len : Nat
  status : Nat
  role : Nat
  peer_id : Nat
  ignore : Bool
deriving Repr, DecidableEq, Inhabited

/-- The slice of a per-peer connection (GC_Connection) used by the embedded
operations: the remote's extended public key and the confirmed/handshaked
flags. -/
structure GC_Connection where
  addr_public_key : ExtKey
  confirmed : Bool
  handshaked : Bool
deriving Repr, DecidableEq, Inhabited

/-- The slice of GC_Chat used by the embedded operations. -/
structure GC_Chat where
  self_public_key : ExtKey
  self_secret_key : ExtKey
  chat_public_key : ExtKey
  chat_secret_key : ExtKey
  group : List GC_GroupPeer
  gcc : List GC_Connection
  numpeers : Nat
  connection_state : Nat
  join_type : Nat
  shared_state : GC_SharedState
  shared_state_sig : SharedStateSig
  topic_info : GC_TopicInfo
  topic_sig : TopicSig
  moderation : GC_Moderation
  connection_O_metre : Nat
  block_handshakes : Bool
  connection_cooldown_timer : Nat
deriving Repr, DecidableEq

/-- Outcomes of external fallible calls checked by the source:
crypto_sign_detached on the shared state and on the topic.  libsodium's
implementation never fails, but the source checks the result, so it is kept as
an oracle. -/
structure CryptoEnv where
  ss_sign_ok : Bool
  topic_sign_ok : Bool
deriving Repr, DecidableEq

/-- Symbolic crypto_sign_detached over a packed shared state. -/
def crypto_sign_shared_state (secret_sig_key : Nat) (s : GC_SharedState) : SharedStateSig :=
  ⟨secret_sig_key, s⟩

/-- Symbolic crypto_sign_verify_detached over a packed shared state. -/
def crypto_verify_shared_state (sig : SharedStateSig) (public_sig_key : Nat)
    (s : GC_SharedState) : Bool :=
  decide (sig = ⟨public_sig_key, s⟩)

/-- Symbolic crypto_sign_detached over a packed topic. -/
def crypto_sign_topic (secret_sig_key : Nat) (t : GC_TopicInfo) : TopicSig :=
  ⟨secret_sig_key, t⟩

/-- Lossless broadcasts emitted to the whole group by the moderation and state
replication operations (each corresponds to one send_gc_lossless_packet_all_peers
call in the source, tagged with the inner kind and the payload). -/
inductive GCBroadcastEvent where
  | sharedState (s : GC_SharedState) (sig : SharedStateSig)
  | modList (l : List Nat)
  | sanctionsList (s : List GC_Sanction) (creds : GC_SanctionCreds)
  | topic (t : GC_TopicInfo) (sig : TopicSig)
  | setMod (add : Bool) (sig_pk : Nat)
deriving Repr, DecidableEq

/-! ### Shared-state signing and broadcasting -/

/-- Modelled from the spec: sizeof(IP_Port) is platform-dependent and its
header is not in src/; the exact value feeds only the maxpeers cap and affects
no claim. -/
def SIZEOF_IP_PORT : Nat := 24

/-- Approximation of the sync response packet size limit (group_chats.c:73). -/
def MAX_GC_NUM_PEERS : Nat := MAX_GC_PACKET_SIZE / (ENC_PUBLIC_KEY + SIZEOF_IP_PORT)

/-- Mirror of sign_gc_shared_state (group_chats.c:730).  Increments the version
(unless it is UINT32_MAX) and signs the packed state with the chat secret
signing key.  pack_gc_shared_state of the fixed-layout record always produces
GC_PACKED_SHARED_STATE_SIZE bytes, so the source's packed_len-mismatch rollback
branch is unreachable; the crypto_sign_detached outcome is the ss_sign_ok
oracle, and on failure the version is decremented (as in the source, without
re-checking the UINT32_MAX guard). -/
def sign_gc_shared_state (env : CryptoEnv) (chat : GC_Chat) : Int × GC_Chat :=
  if (chat.group.getD 0 default).role ≠ GR_FOUNDER then
    (-1, chat)
  else
    let chat1 :=
      if chat.shared_state.version ≠ UINT32_MAX then
        { chat with shared_state := { chat.shared_state with version := chat.shared_state.version + 1 } }
      else
        chat
    if env.ss_sign_ok then
      (0, { chat1 with
              shared_state_sig := crypto_sign_shared_state chat.chat_secret_key.sig chat1.shared_state })
    else
      (-1, { chat1 with
               shared_state := { chat1.shared_state with version := chat1.shared_state.version - 1 } })

/-- Mirror of broadcast_gc_shared_state (group_chats.c:1987).
make_gc_shared_state_packet of the fixed-layout record always produces
GC_SHARED_STATE_ENC_PACKET_SIZE bytes, so the function always succeeds and
emits one SHARED_STATE lossless broadcast. -/
def broadcast_gc_shared_state (chat : GC_Chat) : Int × List GCBroadcastEvent :=
  (0, [GCBroadcastEvent.sharedState chat.shared_state chat.shared_state_sig])

/-! ### Topic -/

/-- Mirror of gc_set_topic (group_chats.c:2691), over the topic byte list (the
C caller passes the buffer together with its length; the list carries its
length).  Returns the error code, the updated chat and the broadcasts emitted.
pack_gc_topic_info of the record always yields
length + GC_MIN_PACKED_TOPIC_INFO_SIZE bytes and make_gc_topic_packet always
matches its computed size, so error -3 is reachable only through the
topic_sign_ok oracle and error -4 (broadcast failure) is unreachable. -/
def gc_set_topic (env : CryptoEnv) (chat : GC_Chat) (topic : List Nat) :
    Int × GC_Chat × List GCBroadcastEvent :=
  if MAX_GC_TOPIC_SIZE < topic.length then
    (-1, chat, [])
  else if GR_MODERATOR < (chat.group.getD 0 default).role then
    (-2, chat, [])
  else
    let v1 :=
      if chat.topic_info.version ≠ UINT32_MAX then chat.topic_info.version + 1
      else chat.topic_info.version
    let ti1 : GC_TopicInfo :=
      { topic := topic, length := topic.length,
        public_sig_key := chat.self_public_key.sig, version := v1 }
    if env.topic_sign_ok then
      let sig1 := crypto_sign_topic chat.self_secret_key.sig ti1
      (0, { chat with topic_info := ti1, topic_sig := sig1 },
        [GCBroadcastEvent.topic ti1 sig1])
    else
      (-3, chat, [])

/-- Mirror of update_gc_topic (group_chats.c:2760): if public_sig_key is the
topic setter's key, re-set (and so re-sign and re-broadcast) the stored topic
through gc_set_topic. -/
def update_gc_topic (env : CryptoEnv) (chat : GC_Chat) (public_sig_key : Nat) :
    Int × GC_Chat × List GCBroadcastEvent :=
  if public_sig_key ≠ chat.topic_info.public_sig_key then
    (0, chat, [])
  else
    let r := gc_set_topic env chat chat.topic_info.topic
    if r.1 ≠ 0 then (-1, r.2.1, r.2.2) else (0, r.2.1, r.2.2)

/-! ### Moderator list and sanctions -/

/-- Index of the peer connection holding a given signing public key, -1 when
absent (get_peernum_of_sig_pk). -/
def get_peernum_of_sig_pk (chat : GC_Chat) (sig_pk : Nat) : Int :=
  match chat.gcc.findIdx? (fun c => c.addr_public_key.sig = sig_pk) with
  | some i => (i : Int)
  | none => -1

/-- Index of the peer connection holding a given encryption public key, -1
when absent (get_peernum_of_enc_pk). -/
def get_peernum_of_enc_pk (chat : GC_Chat) (enc_pk : Nat) : Int :=
  match chat.gcc.findIdx? (fun c => c.addr_public_key.enc = enc_pk) with
  | some i => (i : Int)
  | none => -1

/-- Mirror of mod_list_verify_sig_pk (missing group_moderation.c, modelled
from the spec: membership of a signing key in the moderator list). -/
def mod_list_verify_sig_pk (chat : GC_Chat) (sig_pk : Nat) : Bool :=
  sig_pk ∈ chat.moderation.mod_list

/-- Modelled from the spec: mod_list_make_hash lives in the missing
group_moderation.c; the hash over the packed list is modelled by the packed
list itself (no claim depends on collisions). -/
def mod_list_make_hash (mod_list : List Nat) : List Nat :=
  mod_list

/-- Modelled from the spec: mod_list_add_entry (missing group_moderation.c)
appends a signing key, failing when the list is at its configured capacity. -/
def mod_list_add_entry (chat : GC_Chat) (sig_pk : Nat) : Int × GC_Chat :=
  if MAX_GC_MODERATORS ≤ chat.moderation.mod_list.length then
    (-1, chat)
  else
    (0, { chat with moderation :=
            { chat.moderation with mod_list := chat.moderation.mod_list ++ [sig_pk] } })

/-- Modelled from the spec: mod_list_remove_entry (missing
group_moderation.c) removes a signing key, failing when it is absent. -/
def mod_list_remove_entry (chat : GC_Chat) (sig_pk : Nat) : Int × GC_Chat :=
  if sig_pk ∈ chat.moderation.mod_list then
    (0, { chat with moderation :=
            { chat.moderation with mod_list := chat.moderation.mod_list.erase sig_pk } })
  else
    (-1, chat)

/-- Modelled from the spec: mod_list_remove_index (missing
group_moderation.c) removes the entry at a valid index. -/
def mod_list_remove_index (chat : GC_Chat) (i : Nat) : GC_Chat :=
  { chat with moderation :=
      { chat.moderation with mod_list := chat.moderation.mod_list.eraseIdx i } }

/-- Modelled from the spec: sanctions_list_replace_sig (missing
group_moderation.c) re-issues under our own signing key every sanction whose
issuer is public_sig_key, regenerating the credentials (version + 1, new
checksum, fresh signature) when at least one entry changed; returns the number
of replaced entries. -/
def sanctions_list_replace_sig (chat : GC_Chat) (public_sig_key : Nat) : GC_Chat × Nat :=
  let self_sig := chat.self_public_key.sig
  let num := (chat.moderation.sanctions.filter
    (fun s => s.public_sig_key = public_sig_key)).length
  if num = 0 then
    (chat, 0)
  else
    let new_sanctions := chat.moderation.sanctions.map (fun s =>
      if s.public_sig_key = public_sig_key then
        { public_sig_key := self_sig, payload := s.payload, sig_signer := self_sig }
      else s)
    let new_creds : GC_SanctionCreds :=
      { version := chat.moderation.sanctions_creds.version + 1,
        checksum := new_sanctions, sig_pk := self_sig, sig_signer := self_sig }
    ({ chat with moderation :=
         { chat.moderation with sanctions := new_sanctions, sanctions_creds := new_creds } },
     num)

/-- Mirror of update_gc_sanctions_list (group_chats.c:2386): replace the
removed key's sanction signatures and, when any entry changed, broadcast the
updated sanctions list; returns the number of replaced entries. -/
def update_gc_sanctions_list (chat : GC_Chat) (public_sig_key : Nat) :
    Int × GC_Chat × List GCBroadcastEvent :=
  let r := sanctions_list_replace_sig chat public_sig_key
  if r.2 = 0 then
    (0, r.1, [])
  else
    ((r.2 : Int), r.1,
      [GCBroadcastEvent.sanctionsList r.1.moderation.sanctions r.1.moderation.sanctions_creds])

/-- Mirror of send_gc_set_mod (group_chats.c:2955): broadcasts a SET_MOD
message carrying the add/remove flag and the target's signing key (the 46-byte
broadcast always fits, so the send succeeds). -/
def send_gc_set_mod (chat : GC_Chat) (gconn : GC_Connection) (add_mod : Bool) :
    Int × List GCBroadcastEvent :=
  (0, [GCBroadcastEvent.setMod add_mod gconn.addr_public_key.sig])

/-- Mirror of prune_gc_mod_list (group_chats.c:399): removes the first
moderator whose signing key is not held by any current peer connection, then
re-hashes and re-signs the shared state, broadcasts it, broadcasts the new mod
list, re-issues the removed key's sanctions and re-signs the topic if the
removed key set it.  mod_list_remove_index on a valid index always succeeds,
so the source's continue-on-failure arm is unreachable. -/
def prune_gc_mod_list (env : CryptoEnv) (chat : GC_Chat) :
    Int × GC_Chat × List GCBroadcastEvent :=
  if chat.moderation.mod_list.length = 0 then
    (0, chat, [])
  else
    match chat.moderation.mod_list.findIdx? (fun k => get_peernum_of_sig_pk chat k = -1) with
    | none => (-1, chat, [])
    | some i =>
      let public_sig_key := chat.moderation.mod_list.getD i 0
      let chat1 := mod_list_remove_index chat i
      let chat2 := { chat1 with shared_state :=
        { chat1.shared_state with mod_list_hash := mod_list_make_hash chat1.moderation.mod_list } }
      let rsign := sign_gc_shared_state env chat2
      if rsign.1 = -1 then
        (-1, rsign.2, [])
      else
        let rss := broadcast_gc_shared_state rsign.2
        let evml := [GCBroadcastEvent.modList rsign.2.moderation.mod_list]
        let rsan := update_gc_sanctions_list rsign.2 public_sig_key
        if rsan.1 = -1 then
          (-1, rsan.2.1, rss.2 ++ evml ++ rsan.2.2)
        else
          let rtop := update_gc_topic env rsan.2.1 public_sig_key
          if rtop.1 = -1 then
            (-1, rtop.2.1, rss.2 ++ evml ++ rsan.2.2 ++ rtop.2.2)
          else
            (0, rtop.2.1, rss.2 ++ evml ++ rsan.2.2 ++ rtop.2.2)

/-- Mirror of founder_gc_set_moderator (group_chats.c:2975).  Adds or removes
the signing key of gconn from the moderator list; on removal also re-issues
the removed key's sanctions and re-signs the topic if the removed key set it;
then re-hashes the mod list into the shared state, re-signs and broadcasts the
shared state, and finally broadcasts SET_MOD.  Returns the error code, the
updated chat and the lossless broadcasts emitted, in order. -/
def founder_gc_set_moderator (env : CryptoEnv) (chat : GC_Chat) (gconn : GC_Connection)
    (add_mod : Bool) : Int × GC_Chat × List GCBroadcastEvent :=
  if (chat.group.getD 0 default).role ≠ GR_FOUNDER then
    (-1, chat, [])
  else
    let step1 : Int × GC_Chat × List GCBroadcastEvent :=
      if add_mod then
        let chatP :=
          if MAX_GC_MODERATORS ≤ chat.moderation.mod_list.length then
            prune_gc_mod_list env chat
          else
            (0, chat, [])
        let radd := mod_list_add_entry chatP.2.1 gconn.addr_public_key.sig
        if radd.1 = -1 then (-1, radd.2, chatP.2.2) else (0, radd.2, chatP.2.2)
      else
        let rrem := mod_list_remove_entry chat gconn.addr_public_key.sig
        if rrem.1 = -1 then (-1, rrem.2, [])
        else
          let rsan := update_gc_sanctions_list rrem.2 gconn.addr_public_key.sig
          if rsan.1 = -1 then (-1, rsan.2.1, rsan.2.2)
          else
            let rtop := update_gc_topic env rsan.2.1 gconn.addr_public_key.sig
            if rtop.1 = -1 then (-1, rtop.2.1, rsan.2.2 ++ rtop.2.2)
            else (0, rtop.2.1, rsan.2.2 ++ rtop.2.2)
    if step1.1 = -1 then
      (-1, step1.2.1, step1.2.2)
    else
      let chat1 := step1.2.1
      let evs1 := step1.2.2
      let chat2 := { chat1 with shared_state :=
        { chat1.shared_state with mod_list_hash := mod_list_make_hash chat1.moderation.mod_list } }
      let rsign := sign_gc_shared_state env chat2
      if rsign.1 = -1 then
        (-1, { rsign.2 with shared_state :=
                 { rsign.2.shared_state with mod_list_hash := chat1.shared_state.mod_list_hash } },
          evs1)
      else
        let rss := broadcast_gc_shared_state rsign.2
        let rsm := send_gc_set_mod rsign.2 gconn add_mod
        (0, rsign.2, evs1 ++ rss.2 ++ rsm.2)

/-! ### Message sending (gc_send_message) -/

/-- Size admissibility of send_gc_broadcast_message (group_chats.c:1605): the
broadcast fails only when the body plus the 13-byte broadcast header exceeds
the maximum packet size (the actual fan-out returns no error). -/
def send_gc_broadcast_message (length : Nat) : Int :=
  if MAX_GC_PACKET_SIZE < length + GC_BROADCAST_ENC_HEADER_SIZE then -1 else 0

/-- Mirror of gc_send_message (group_chats.c:3410): checks, in order, message
length, null/empty message, message type, the caller's role, and the broadcast
send. -/
def gc_send_message (chat : GC_Chat) (message : Option (List Nat)) (length : Nat)
    (type_ : Nat) : Int :=
  if MAX_GC_MESSAGE_SIZE < length then
    -1
  else if message = none ∨ length = 0 then
    -2
  else if type_ ≠ GC_MESSAGE_TYPE_NORMAL ∧ type_ ≠ GC_MESSAGE_TYPE_ACTION then
    -3
  else if GR_OBSERVER ≤ (chat.group.getD 0 default).role then
    -4
  else if send_gc_broadcast_message length = -1 then
    -5
  else
    0

/-! ### C3: receiving a SHARED_STATE packet -/

/-- A SHARED_STATE packet after the hash-id prefix: the detached signature
followed by the packed shared state (whose last four bytes are the version).
The packed form is modelled by the record itself. -/
structure SharedStatePacket where
  signature : SharedStateSig
  state : GC_SharedState
deriving Repr, DecidableEq

/-- Mirror of validate_gc_shared_state (group_chats.c:2045). -/
def validate_gc_shared_state (state : GC_SharedState) : Int :=
  if MAX_GC_NUM_PEERS < state.maxpeers then
    -1
  else if MAX_GC_PASSWD_SIZE < state.passwd_len then
    -1
  else if state.group_name_len = 0 ∨ MAX_GC_GROUP_NAME_SIZE < state.group_name_len then
    -1
  else
    0

/-- Outcome of handle_gc_shared_state: the returned code, the updated chat,
and whether the sending peer was deleted / a sync request was sent to another
peer on the bad-packet path. -/
structure SharedStateOutcome where
  result : Int
  chat : GC_Chat
  peer_deleted : Bool
  sync_requested : Bool
deriving Repr, DecidableEq

/-- Mirror of handle_gc_shared_state (group_chats.c:2068).  The length check
always passes for a well-formed record packet.  On a bad signature the sender
is deleted (modelled by the peer_deleted flag and the numpeers decrement) and
either the chat disconnects (no valid state yet), gives up (no other peer) or
asks peer 1 for a sync.  With a valid signature, a version strictly below the
cached one returns 0 without touching the cache; otherwise the packet is
unpacked (always succeeds for a record), validated, and installed together
with its signature. -/
def handle_gc_shared_state (chat : GC_Chat) (packet : SharedStatePacket) :
    SharedStateOutcome :=
  if ¬ crypto_verify_shared_state packet.signature chat.chat_public_key.sig packet.state then
    let chat1 := { chat with numpeers := chat.numpeers - 1 }
    if chat1.shared_state.version = 0 then
      ⟨-1, { chat1 with connection_state := CS_DISCONNECTED }, true, false⟩
    else if chat1.numpeers ≤ 1 then
      ⟨-1, chat1, true, false⟩
    else
      ⟨0, chat1, true, true⟩
  else if packet.state.version < chat.shared_state.version then
    ⟨0, chat, false, false⟩
  else if validate_gc_shared_state packet.state = -1 then
    ⟨-1, chat, false, false⟩
  else
    ⟨0, { chat with shared_state := packet.state, shared_state_sig := packet.signature },
      false, false⟩

/-! ### C4: handshake request rate limiting -/

/-- Mirror of is_public_chat (group_chats.c:127). -/
def is_public_chat (chat : GC_Chat) : Bool :=
  chat.shared_state.privacy_state = GI_PUBLIC

/-- Outcome of the handshake-request handler: returned code (0 stands for the
nonnegative peer number), updated chat, and whether a peer entry was newly
added (and survived). -/
structure HandshakeReqOutcome where
  result : Int
  chat : GC_Chat
  new_peer_added : Bool
deriving Repr, DecidableEq

/-- The peer-admission step of handle_gc_handshake_request
(group_chats.c:4384): an unknown sender is added as a new peer when the chat
is public or the sender is in the confirmed ring (peer_add's TCP allocation is
the tcp_ok oracle); a known sender whose connection is already handshaked is
reconnected (deleted and re-added); a known non-handshaked sender is kept.
Returns the updated chat and whether a peer entry was newly created. -/
def gc_handshake_admit (chat1 : GC_Chat) (sender_enc_pk : Nat)
    (sender_confirmed tcp_ok : Bool) : Option (GC_Chat × Bool) :=
  let peer_number := get_peernum_of_enc_pk chat1 sender_enc_pk
  if peer_number < 0 then
    if is_public_chat chat1 ∨ sender_confirmed then
      if tcp_ok then
        some ({ chat1 with
                  numpeers := chat1.numpeers + 1,
                  gcc := chat1.gcc ++ [⟨⟨sender_enc_pk, 0⟩, false, false⟩],
                  group := chat1.group ++ [default] }, true)
      else
        none
    else
      none
  else
    if (chat1.gcc.getD peer_number.toNat default).handshaked then
      if tcp_ok then
        some ({ chat1 with
                  gcc := chat1.gcc.set peer_number.toNat ⟨⟨sender_enc_pk, 0⟩, false, false⟩ },
          true)
      else
        none
    else
      some (chat1, false)

/-- Mirror of handle_gc_handshake_request (group_chats.c:4346), up to the
admission decision the claim is about.  External facts are passed as inputs:
the packet length, whether the sender's IP is on the ban list
(sanctions_list_ip_banned lives in the missing group_moderation.c), whether
the sender's key is in the confirmed-peers ring, whether the TCP connection
allocation inside peer_add succeeds, whether the relay node in the packet
unpacks, and whether the join type in the packet is HJ_PUBLIC while the chat
is private.  The tail of the handler (session-key derivation, recording the
sender's version, scheduling the response) does not touch the rate limiter
and is summarised by the success result. -/
def handle_gc_handshake_request (chat : GC_Chat) (length : Nat)
    (sender_enc_pk : Nat) (sender_sig_pk : Nat) (ip_banned : Bool)
    (sender_confirmed : Bool) (tcp_ok : Bool) (relay_ok : Bool)
    (join_public_mismatch : Bool) : HandshakeReqOutcome :=
  if length < ENC_PUBLIC_KEY * 2 + SIG_PUBLIC_KEY + 6 then
    ⟨-1, chat, false⟩
  else if chat.connection_state = CS_FAILED then
    ⟨-1, chat, false⟩
  else if 0 < chat.shared_state.version ∧ ip_banned ∧
      ¬ mod_list_verify_sig_pk chat sender_sig_pk then
    ⟨-1, chat, false⟩
  else if GC_NEW_PEER_CONNECTION_LIMIT ≤ chat.connection_O_metre then
    ⟨-1, { chat with block_handshakes := true }, false⟩
  else
    let chat1 := { chat with connection_O_metre := chat.connection_O_metre + 1 }
    match gc_handshake_admit chat1 sender_enc_pk sender_confirmed tcp_ok with
    | none => ⟨-1, chat1, false⟩
    | some (chat2, is_new_peer) =>
      if ¬ relay_ok then
        if is_new_peer then
          ⟨-1, { chat2 with numpeers := chat2.numpeers - 1 }, false⟩
        else
          ⟨-1, chat2, false⟩
      else if join_public_mismatch then
        ⟨-1, { chat2 with numpeers := chat2.numpeers - 1 }, false⟩
      else
        ⟨0, chat2, is_new_peer⟩

/-- Mirror of do_new_connection_cooldown (group_chats.c:5241): nothing while
the counter is zero; otherwise, when the cooldown timer is in the past, stamp
it with the current time and decrement the counter, clearing block_handshakes
when it reaches zero. -/
def do_new_connection_cooldown (chat : GC_Chat) (tm : Nat) : GC_Chat :=
  if chat.connection_O_metre = 0 then
    chat
  else if chat.connection_cooldown_timer < tm then
    let metre1 := chat.connection_O_metre - 1
    { chat with connection_cooldown_timer := tm,
                connection_O_metre := metre1,
                block_handshakes := if metre1 = 0 then false else chat.block_handshakes }
  else
    chat

/-! ### C7: group creation -/

/-- GC_SelfPeerInfo: the caller-supplied nick (a null pointer is none), its
length and the user status. -/
structure GC_SelfPeerInfo where
  nick : Option (List Nat)
  nick_length : Nat
  user_status : Nat
deriving Repr, DecidableEq

/-- Mirror of is_self_peer_info_valid (group_chats.c:122). -/
def is_self_peer_info_valid (peer_info : GC_SelfPeerInfo) : Bool :=
  peer_info.nick_length ≠ 0 ∧ peer_info.nick ≠ none ∧ peer_info.user_status < GS_INVALID

/-- Zeroed GC_SharedState, as left by the memset in get_new_group_index. -/
def zeroSharedState : GC_SharedState :=
  { founder_public_key := ⟨0, 0⟩, maxpeers := 0, group_name := [], group_name_len := 0,
    privacy_state := 0, passwd := [], passwd_len := 0, mod_list_hash := [], version := 0 }

/-- Zeroed GC_TopicInfo. -/
def zeroTopicInfo : GC_TopicInfo :=
  { topic := [], length := 0, public_sig_key := 0, version := 0 }

/-- A freshly zeroed chat slot, as produced by get_new_group_index
(group_chats.c:5403): every field zero-initialised. -/
def new_zeroed_chat : GC_Chat :=
  { self_public_key := ⟨0, 0⟩, self_secret_key := ⟨0, 0⟩,
    chat_public_key := ⟨0, 0⟩, chat_secret_key := ⟨0, 0⟩,
    group := [], gcc := [], numpeers := 0,
    connection_state := CS_NONE, join_type := 0,
    shared_state := zeroSharedState,
    shared_state_sig := ⟨0, zeroSharedState⟩,
    topic_info := zeroTopicInfo, topic_sig := ⟨0, zeroTopicInfo⟩,
    moderation := { mod_list := [], sanctions := [],
                    sanctions_creds := ⟨0, [], 0, 0⟩ },
    connection_O_metre := 0, block_handshakes := false,
    connection_cooldown_timer := 0 }

/-- Mirror of peer_add (group_chats.c:5087) over the embedded chat slice:
rejects a key already in the list (-2); a TCP connection slot is allocated
only when other peers exist (its success is the tcp_ok oracle); appends a
zeroed connection and a zeroed peer entry with role GR_INVALID and the freshly
drawn peer id.  Returns the new peer's number. -/
def peer_add (chat : GC_Chat) (public_key : ExtKey) (peer_id : Nat) (tcp_ok : Bool) :
    Int × GC_Chat :=
  if get_peernum_of_enc_pk chat public_key.enc ≠ -1 then
    (-2, chat)
  else if 0 < chat.numpeers ∧ ¬ tcp_ok then
    (-1, chat)
  else
    let peernumber := chat.numpeers
    ((peernumber : Int),
      { chat with
          numpeers := chat.numpeers + 1,
          gcc := chat.gcc ++ [⟨⟨public_key.enc, 0⟩, false, false⟩],
          group := chat.group ++
            [{ nick := [], nick_len := 0, status := 0, role := GR_INVALID,
               peer_id := peer_id, ignore := false }] })

/-- Mirror of create_new_group (group_chats.c:5451): a zeroed chat slot,
fresh self extended keypair (passed in: the RNG is external), disconnected
state, self added as peer 0, then self's nick, status, role (founder or user)
and confirmed flag filled in. -/
def create_new_group (self_keys : ExtKey) (peer_info : GC_SelfPeerInfo)
    (founder : Bool) (peer_id : Nat) : Int × GC_Chat :=
  let chat0 := { new_zeroed_chat with
                   self_public_key := self_keys, self_secret_key := self_keys,
                   numpeers := 0, connection_state := CS_DISCONNECTED }
  let radd := peer_add chat0 self_keys peer_id true
  if radd.1 ≠ 0 then
    (-1, radd.2)
  else
    let chat1 := radd.2
    let self_peer : GC_GroupPeer :=
      { nick := (peer_info.nick.getD []).take peer_info.nick_length,
        nick_len := peer_info.nick_length,
        status := peer_info.user_status,
        role := if founder then GR_FOUNDER else GR_USER,
        peer_id := (chat1.group.getD 0 default).peer_id,
        ignore := false }
    (0, { chat1 with
            group := chat1.group.set 0 self_peer,
            gcc := chat1.gcc.set 0 ⟨self_keys, true, false⟩ })

/-- Mirror of init_gc_shared_state (group_chats.c:5495): founder key, group
name, maxpeers cap and privacy state, then the first sign_gc_shared_state. -/
def init_gc_shared_state (env : CryptoEnv) (chat : GC_Chat) (privacy_state : Nat)
    (group_name : List Nat) (name_length : Nat) : Int × GC_Chat :=
  let chat1 := { chat with shared_state :=
    { chat.shared_state with
        founder_public_key := chat.self_public_key,
        group_name := group_name.take name_length,
        group_name_len := name_length,
        maxpeers := MAX_GC_NUM_PEERS,
        privacy_state := privacy_state } }
  sign_gc_shared_state env chat1

/-- Modelled from the spec: sanctions_list_make_creds (missing
group_moderation.c) initialises the credentials for the empty sanctions list:
version zero, checksum of the empty list, our signing key and signature. -/
def sanctions_list_make_creds (chat : GC_Chat) : Int × GC_Chat :=
  (0, { chat with moderation :=
          { chat.moderation with sanctions_creds :=
              ⟨0, chat.moderation.sanctions, chat.self_public_key.sig,
                chat.self_public_key.sig⟩ } })

/-- Mirror of init_gc_sanctions_creds (group_chats.c:5510). -/
def init_gc_sanctions_creds (chat : GC_Chat) : Int × GC_Chat :=
  sanctions_list_make_creds chat

/-- Mirror of gc_group_add (group_chats.c:5652).  External inputs: the crypto
oracle, the two freshly generated extended keypairs, and whether adding the
group's friend entry to the messenger succeeds for public chats.  The single
created group is returned in place of its group number; the success result is
0. -/
def gc_group_add (env : CryptoEnv) (chat_keys self_keys : ExtKey) (privacy_state : Nat)
    (group_name : Option (List Nat)) (group_name_length : Nat)
    (peer_info : GC_SelfPeerInfo) (peer_id : Nat) (friend_add_ok : Bool) :
    Int × GC_Chat :=
  if MAX_GC_GROUP_NAME_SIZE < group_name_length then
    (-1, new_zeroed_chat)
  else if group_name_length = 0 ∨ group_name = none then
    (-2, new_zeroed_chat)
  else if ¬ is_self_peer_info_valid peer_info then
    (-6, new_zeroed_chat)
  else if GI_INVALID ≤ privacy_state then
    (-3, new_zeroed_chat)
  else
    let rnew := create_new_group self_keys peer_info true peer_id
    if rnew.1 = -1 then
      (-4, rnew.2)
    else
      let chat1 := { rnew.2 with chat_public_key := chat_keys, chat_secret_key := chat_keys }
      let rss := init_gc_shared_state env chat1 privacy_state (group_name.getD [])
        group_name_length
      if rss.1 = -1 then
        (-5, rss.2)
      else
        let rcreds := init_gc_sanctions_creds rss.2
        if rcreds.1 = -1 then
          (-5, rcreds.2)
        else
          let rtopic := gc_set_topic env rcreds.2 [32]
          if rtopic.1 ≠ 0 then
            (-5, rtopic.2.1)
          else
            let chat2 := { rtopic.2.1 with join_type := HJ_PRIVATE,
                                           connection_state := CS_CONNECTED }
            if is_public_chat chat2 then
              if ¬ friend_add_ok then (-6, chat2) else (0, chat2)
            else
              (0, chat2)

/-! ### C2: lossless receive window -/

/-- The receiving half of a lossless connection: the cursor of the last
in-order message handled (starts at 0) and the 64-slot buffer for out-of-order
arrivals, each slot optionally holding (message_id, data). -/
structure GC_RecvConnection where
  handshaked : Bool
  recv_message_id : Nat
  recv_ary : List (Option (Nat × List Nat))
deriving Repr, DecidableEq

/-- Modelled from the spec: gcc_handle_recv_message lives in the missing
group_connection.c; spec section 4.2 gives the receiver rules.  Returns 2 and
advances the cursor for the next expected id; 0 for a duplicate
(msg_id at most the cursor); 1 after buffering an out-of-order id within the
64-slot window (slot msg_id mod 64); -1 outside the window. -/
def gcc_handle_recv_message (gconn : GC_RecvConnection) (message_id : Nat)
    (data : List Nat) : Int × GC_RecvConnection :=
  if message_id = gconn.recv_message_id + 1 then
    (2, { gconn with recv_message_id := gconn.recv_message_id + 1 })
  else if message_id ≤ gconn.recv_message_id then
    (0, gconn)
  else if message_id ≤ gconn.recv_message_id + GCC_BUFFER_SIZE then
    (1, { gconn with recv_ary :=
            gconn.recv_ary.set (message_id % GCC_BUFFER_SIZE) (some (message_id, data)) })
  else
    (-1, gconn)

/-- Mirror of gc_send_message_ack (group_chats.c:3869): refuses an ack with
both fields nonzero; otherwise emits the lossy MESSAGE_ACK packet
(read_id, request_id). -/
def gc_send_message_ack (read_id request_id : Nat) : Option (Nat × Nat) :=
  if read_id ≠ 0 ∧ request_id ≠ 0 then
    none
  else
    some (read_id, request_id)

/-- Modelled from the spec: gcc_check_recv_ary (missing group_connection.c)
drains the buffer in order: while the slot of the next expected id holds that
id, deliver it, clear the slot and advance.  The fuel bounds the loop by the
window size. -/
def gcc_check_recv_ary : Nat → GC_RecvConnection → GC_RecvConnection × List (Nat × List Nat)
  | 0, g => (g, [])
  | fuel + 1, g =>
    match g.recv_ary.getD ((g.recv_message_id + 1) % GCC_BUFFER_SIZE) none with
    | some (id, d) =>
      if id = g.recv_message_id + 1 then
        let g1 := { g with recv_message_id := id,
                           recv_ary := g.recv_ary.set (id % GCC_BUFFER_SIZE) none }
        let rest := gcc_check_recv_ary fuel g1
        (rest.1, (id, d) :: rest.2)
      else
        (g, [])
    | none => (g, [])

/-- Outcome of the lossless receive path: the handler result, the updated
connection, the MESSAGE_ACK packets sent (in order) and the application-level
deliveries (the packets on which handle_gc_lossless_helper ran, in order). -/
structure LosslessOutcome where
  result : Int
  conn : GC_RecvConnection
  acks : List (Nat × Nat)
  delivered : List (Nat × List Nat)
deriving Repr, DecidableEq

/-- Mirror of handle_gc_lossless_message (group_chats.c:4591) from the point
where the packet has been unwrapped (the unwrap itself is the codec of C8):
non-HS_RESPONSE_ACK packets from an unhandshaked peer are rejected; the
message is classified by gcc_handle_recv_message; a duplicate is acked with
(message_id, 0) without running the handler; an out-of-order message within
the window is buffered and acked with (0, recv_message_id + 1) without
running the handler; the next expected message runs the handler, is acked
with (message_id, 0), and the buffer is drained in order. -/
def handle_gc_lossless_message (gconn : GC_RecvConnection) (packet_type : Nat)
    (message_id : Nat) (data : List Nat) : LosslessOutcome :=
  if packet_type ≠ GP_HS_RESPONSE_ACK ∧ ¬ gconn.handshaked then
    ⟨-1, gconn, [], []⟩
  else
    let r := gcc_handle_recv_message gconn message_id data
    let gconn1 := r.2
    if r.1 = -1 then
      ⟨-1, gconn1, [], []⟩
    else if r.1 = 0 then
      match gc_send_message_ack message_id 0 with
      | some ack => ⟨0, gconn1, [ack], []⟩
      | none => ⟨-1, gconn1, [], []⟩
    else if r.1 = 1 then
      match gc_send_message_ack 0 (gconn1.recv_message_id + 1) with
      | some ack => ⟨0, gconn1, [ack], []⟩
      | none => ⟨-1, gconn1, [], []⟩
    else
      match gc_send_message_ack message_id 0 with
      | some ack =>
        let drained := gcc_check_recv_ary GCC_BUFFER_SIZE gconn1
        ⟨0, drained.1, [ack], (message_id, data) :: drained.2⟩
      | none => ⟨-1, gconn1, [], [(message_id, data)]⟩

/-! ### C8: packet codec (wrap_group_packet / unwrap_group_packet) -/

/-- Big-endian U32_to_bytes (util.h, modelled from the spec's big-endian
canonical encoding). -/
def U32_to_bytes (n : Nat) : List Nat :=
  [n / 2 ^ 24 % 256, n / 2 ^ 16 % 256, n / 2 ^ 8 % 256, n % 256]

/-- Big-endian U64_to_bytes. -/
def U64_to_bytes (n : Nat) : List Nat :=
  [n / 2 ^ 56 % 256, n / 2 ^ 48 % 256, n / 2 ^ 40 % 256, n / 2 ^ 32 % 256,
   n / 2 ^ 24 % 256, n / 2 ^ 16 % 256, n / 2 ^ 8 % 256, n % 256]

/-- Big-endian bytes_to_U64. -/
def bytes_to_U64 (l : List Nat) : Nat :=
  l.foldl (fun acc b => acc * 256 + b) 0

/-- Authentication tag of the symbolic symmetric encryption: 16 bytes derived
from the key, the nonce and the plaintext. -/
def gc_sym_mac (key nonce plain : List Nat) : List Nat :=
  List.replicate 15 0 ++ [(key.sum + nonce.sum + plain.length) % 256]

/-- Symbolic encrypt_data_symmetric: tag followed by the plaintext; the output
is crypto_box_MACBYTES longer than the input, as in NaCl. -/
def encrypt_data_symmetric (key nonce plain : List Nat) : List Nat :=
  gc_sym_mac key nonce plain ++ plain

/-- Symbolic decrypt_data_symmetric: checks the tag and strips it. -/
def decrypt_data_symmetric (key nonce ciphertext : List Nat) : Option (List Nat) :=
  if crypto_box_MACBYTES ≤ ciphertext.length ∧
      ciphertext.take crypto_box_MACBYTES =
        gc_sym_mac key nonce (ciphertext.drop crypto_box_MACBYTES) then
    some (ciphertext.drop crypto_box_MACBYTES)
  else
    none

/-- Mirror of GC_PACKET_PADDING_LENGTH (group_chats.c:41). -/
def GC_PACKET_PADDING_LENGTH (length : Nat) : Nat :=
  (MAX_GC_PACKET_SIZE - length) % GC_MAX_PACKET_PADDING

/-- Mirror of wrap_group_packet (group_chats.c:816).  The nonce comes from the
external RNG and is passed in.  The plaintext is padding zeros, the inner
packet type, the message id (lossless only) and the body; the output packet is
the outer id byte, the chat-id hash, the sender's encryption key, the nonce
and the ciphertext. -/
def wrap_group_packet (self_pk : List Nat) (shared_key : List Nat) (nonce : List Nat)
    (packet_size : Nat) (data : List Nat) (message_id : Nat) (packet_type : Nat)
    (chat_id_hash : Nat) (packet_id : Nat) : Option (List Nat) :=
  let padding_len := GC_PACKET_PADDING_LENGTH data.length
  if packet_size < data.length + padding_len + crypto_box_MACBYTES + 1 + HASH_ID_BYTES +
      ENC_PUBLIC_KEY + crypto_box_NONCEBYTES then
    none
  else
    let enc_header :=
      if packet_id = NET_PACKET_GC_LOSSLESS then
        packet_type :: U64_to_bytes message_id
      else
        [packet_type]
    let plain := List.replicate padding_len 0 ++ enc_header ++ data
    let ciphertext := encrypt_data_symmetric shared_key nonce plain
    some ([packet_id] ++ U32_to_bytes chat_id_hash ++ self_pk ++ nonce ++ ciphertext)

/-- The padding-stripping loop of unwrap_group_packet: while the first byte is
zero, drop it, failing when fewer than min_plain_len bytes remain. -/
def remove_padding (min_plain_len : Nat) : List Nat → Option (List Nat)
  | [] => none
  | b :: rest =>
    if b = 0 then
      if rest.length < min_plain_len then none else remove_padding min_plain_len rest
    else
      some (b :: rest)

/-- Mirror of unwrap_group_packet (group_chats.c:762).  Reads the nonce and
ciphertext at their fixed offsets, decrypts, strips the leading zero padding,
reads the inner packet type at the first nonzero byte and, for lossless
packets, the 8-byte message id after it (0 is returned for lossy packets,
whose caller passes a null message_id).  Returns (packet_type, message_id,
body).  Where the C would read past a too-short buffer the model fails
instead. -/
def unwrap_group_packet (shared_key : List Nat) (lossless : Bool)
    (packet : List Nat) : Option (Nat × Nat × List Nat) :=
  let header := 1 + HASH_ID_BYTES + ENC_PUBLIC_KEY
  let nonce := (packet.drop header).take crypto_box_NONCEBYTES
  let ciphertext := packet.drop (header + crypto_box_NONCEBYTES)
  match decrypt_data_symmetric shared_key nonce ciphertext with
  | none => none
  | some plain =>
    if plain.length = 0 then
      none
    else
      let min_plain_len := if lossless then 1 + MESSAGE_ID_BYTES else 1
      match remove_padding min_plain_len plain with
      | none => none
      | some [] => none
      | some (ptype :: rest) =>
        if lossless then
          if rest.length < MESSAGE_ID_BYTES then
            none
          else
            some (ptype, bytes_to_U64 (rest.take MESSAGE_ID_BYTES),
              rest.drop MESSAGE_ID_BYTES)
        else
          some (ptype, 0, rest)

/-! ### Concrete instances used by counterexamples and witnesses -/

/-- Constructor tag of a broadcast event, for stating broadcast-order facts
without spelling out payloads. -/
def event_kind : GCBroadcastEvent → Nat
  | .sharedState _ _ => 0
  | .modList _ => 1
  | .sanctionsList _ _ => 2
  | .topic _ _ => 3
  | .setMod _ _ => 4

/-- A valid cached shared state at version 5, group name the byte 65. -/
def ssA : GC_SharedState :=
  { zeroSharedState with group_name := [65], group_name_len := 1, version := 5 }

/-- A different valid shared state with the same version 5, group name 66. -/
def ssB : GC_SharedState :=
  { zeroSharedState with group_name := [66], group_name_len := 1, version := 5 }

/-- A chat whose chat signing key is 7 and whose cached shared state is ssA,
correctly signed. -/
def chatC3 : GC_Chat :=
  { new_zeroed_chat with
      chat_public_key := ⟨0, 7⟩,
      shared_state := ssA, shared_state_sig := ⟨7, ssA⟩, numpeers := 3 }

/-- A SHARED_STATE packet carrying ssB, signed by the chat signing key 7. -/
def pktB : SharedStatePacket := ⟨⟨7, ssB⟩, ssB⟩

/-- A SHARED_STATE packet carrying ssA at version 6, signed by key 7. -/
def pktA6 : SharedStatePacket :=
  ⟨⟨7, { ssA with version := 6 }⟩, { ssA with version := 6 }⟩

/-- A chat that already knows the peer with encryption key 5 through a
non-handshaked connection. -/
def chatC4 : GC_Chat :=
  { new_zeroed_chat with
      gcc := [⟨⟨5, 0⟩, false, false⟩], group := [default], numpeers := 1 }

/-- A founder-led chat whose only moderator is signing key 9, with no
sanctions and a topic set by signing key 0. -/
def chatC5 : GC_Chat :=
  { new_zeroed_chat with
      group := [{ nick := [], nick_len := 0, status := 0, role := GR_FOUNDER,
                  peer_id := 0, ignore := false }],
      numpeers := 1,
      moderation := { mod_list := [9], sanctions := [],
                      sanctions_creds := ⟨0, [], 0, 0⟩ } }

/-- The connection of the moderator to be removed in the C5 scenario: signing
key 9. -/
def gconnC5 : GC_Connection := ⟨⟨4, 9⟩, true, true⟩

/-- A crypto environment where both signing calls succeed. -/
def envOk : CryptoEnv := ⟨true, true⟩

/-- A handshaked receiving connection with cursor 4 and an empty 64-slot
buffer. -/
def g0 : GC_RecvConnection :=
  ⟨true, 4, List.replicate GCC_BUFFER_SIZE none⟩

/-- A SHARED_STATE packet carrying ssA at version 4, signed by key 7. -/
def pktA4 : SharedStatePacket :=
  ⟨⟨7, { ssA with version := 4 }⟩, { ssA with version := 4 }⟩

/-- A chat whose new-connection counter has reached the limit. -/
def chat10 : GC_Chat := { new_zeroed_chat with connection_O_metre := 10 }

/-- A chat with counter 1, handshakes blocked and cooldown timer 0. -/
def chatMetre1 : GC_Chat :=
  { new_zeroed_chat with connection_O_metre := 1, block_handshakes := true }

/-- A chat whose self peer has the Observer role. -/
def chatObserver : GC_Chat :=
  { new_zeroed_chat with
      group := [{ nick := [], nick_len := 0, status := 0, role := GR_OBSERVER,
                  peer_id := 0, ignore := false }],
      numpeers := 1 }

/-- A chat that is behind on nothing: all four local values zero. -/
def pingZero : GC_PingData := ⟨0, 0, 0, 0⟩

/-- A ping reporting one confirmed peer more than pingZero. -/
def pingAhead : GC_PingData := ⟨1, 0, 0, 0⟩

/-! ## Theorems -/

/-! ### Helper lemmas -/

theorem do_gc_peer_state_sync_eq (ours p : GC_PingData) (pending : Bool) :
    do_gc_peer_state_sync ours p pending GC_PING_PACKET_DATA_SIZE =
      (gc_versions_behind ours p && !pending, gc_versions_behind ours p && pending) := by
  unfold do_gc_peer_state_sync
  split_ifs with h1 h2 h3 <;> simp_all

theorem ping_trace_send_requires_prior (ours : GC_PingData) (pings : List GC_PingData) :
    ∀ (pending : Bool) (i : Nat),
      (ping_trace ours pending pings).getD i false = true →
      gc_versions_behind ours (pings.getD i default) = true ∧
      (i = 0 → pending = true) ∧
      (0 < i → gc_versions_behind ours (pings.getD (i - 1) default) = true) := by
  induction pings with
  | nil =>
    intro pending i h
    simp [ping_trace] at h
  | cons p ps ih =>
    intro pending i h
    rw [ping_trace] at h
    cases i with
    | zero =>
      simp only [List.getD_cons_zero, do_gc_peer_state_sync_eq] at h ⊢
      have hb : gc_versions_behind ours p = true ∧ pending = true := by
        constructor <;> [exact (Bool.and_eq_true _ _ |>.mp h).1;
          exact (Bool.and_eq_true _ _ |>.mp h).2]
      exact ⟨hb.1, fun _ => hb.2, fun h0 => absurd h0 (by omega)⟩
    | succ j =>
      simp only [List.getD_cons_succ, do_gc_peer_state_sync_eq] at h
      have h3 := ih _ j h
      refine ⟨h3.1, fun hj => absurd hj (by omega), fun _ => ?_⟩
      cases j with
      | zero =>
        have hr := h3.2.1 rfl
        simp only [Bool.and_eq_true] at hr
        simpa using hr.1
      | succ k =>
        simpa using h3.2.2 (by omega)

/-! ### C1 -/

/-- C1: the claim that exactly one side of a simultaneous connect sends the
follow-up invite request — on equal shared-state versions the side with the
lexicographically smaller public key — is falsified by the code: with both
advertised versions 0, when the initiator's key (all zeros) is smaller than
the responder's (all ones) the initiator's handshake-response handler and the
responder's HS_RESPONSE_ACK handler both decide to send the invite request,
and with the keys exchanged neither side does. -/
theorem c1_equal_version_tie_breaks_on_both_sides :
    (handle_gc_handshake_response_sends_invite 0 0
        (List.replicate 32 0) (List.replicate 32 1) = true ∧
      handle_gc_hs_response_ack_sends_invite 0 0
        (List.replicate 32 1) (List.replicate 32 0) = true) ∧
    (handle_gc_handshake_response_sends_invite 0 0
        (List.replicate 32 1) (List.replicate 32 0) = false ∧
      handle_gc_hs_response_ack_sends_invite 0 0
        (List.replicate 32 0) (List.replicate 32 1) = false) := by
  decide

/-! ### C6 -/

/-- C6: a ping reporting the receiver behind only sets pending_state_sync when
the flag was clear (no SyncRequest on the first such ping); a further
behind-ping with the flag set issues the SyncRequest and clears the flag; a
ping showing the receiver not behind clears the flag; and along any ping
sequence started with the flag clear, a SyncRequest at position i requires
i > 0 with both ping i and ping i-1 reporting the receiver behind. -/
theorem c6_two_ping_rule (ours theirs : GC_PingData) (pending : Bool)
    (pings : List GC_PingData) (i : Nat) :
    (gc_versions_behind ours theirs = true → pending = false →
      do_gc_peer_state_sync ours theirs pending GC_PING_PACKET_DATA_SIZE = (true, false)) ∧
    (gc_versions_behind ours theirs = true → pending = true →
      do_gc_peer_state_sync ours theirs pending GC_PING_PACKET_DATA_SIZE = (false, true)) ∧
    (gc_versions_behind ours theirs = false →
      do_gc_peer_state_sync ours theirs pending GC_PING_PACKET_DATA_SIZE = (false, false)) ∧
    ((ping_trace ours false pings).getD i false = true →
      0 < i ∧ gc_versions_behind ours (pings.getD i default) = true ∧
        gc_versions_behind ours (pings.getD (i - 1) default) = true) := by
  refine ⟨?_, ?_, ?_, ?_⟩
  · intro hb hp; rw [do_gc_peer_state_sync_eq, hb, hp]; rfl
  · intro hb hp; rw [do_gc_peer_state_sync_eq, hb, hp]; rfl
  · intro hb; rw [do_gc_peer_state_sync_eq, hb]; simp
  · intro h
    have h3 := ping_trace_send_requires_prior ours pings false i h
    have hi : 0 < i := by
      rcases Nat.eq_zero_or_pos i with h0 | h0
      · exact absurd (h3.2.1 h0) (by simp)
      · exact h0
    exact ⟨hi, h3.1, h3.2.2 hi⟩

/-- Witness for C6 at concrete inputs: local values all zero, the incoming
ping reports one more confirmed peer, and a two-ping behind sequence triggers
the request at position 1. -/
theorem c6_two_ping_rule_witness :
    do_gc_peer_state_sync pingZero pingAhead false GC_PING_PACKET_DATA_SIZE = (true, false) ∧
    do_gc_peer_state_sync pingZero pingAhead true GC_PING_PACKET_DATA_SIZE = (false, true) ∧
    do_gc_peer_state_sync pingZero pingZero false GC_PING_PACKET_DATA_SIZE = (false, false) ∧
    (0 < 1 ∧ gc_versions_behind pingZero ([pingAhead, pingAhead].getD 1 default) = true ∧
      gc_versions_behind pingZero ([pingAhead, pingAhead].getD (1 - 1) default) = true) := by
  refine ⟨?_, ?_, ?_, ?_⟩
  · exact (c6_two_ping_rule pingZero pingAhead false [] 0).1 (by decide) rfl
  · exact (c6_two_ping_rule pingZero pingAhead true [] 0).2.1 (by decide) rfl
  · exact (c6_two_ping_rule pingZero pingZero false [] 0).2.2.1 (by decide)
  · exact (c6_two_ping_rule pingZero pingZero false [pingAhead, pingAhead] 1).2.2.2 (by decide)

/-! ### C2 -/

theorem gc_handshake_admit_metre (chat1 : GC_Chat) (sender_enc_pk : Nat)
    (sender_confirmed tcp_ok : Bool) (chat2 : GC_Chat) (is_new : Bool)
    (h : gc_handshake_admit chat1 sender_enc_pk sender_confirmed tcp_ok =
      some (chat2, is_new)) :
    chat2.connection_O_metre = chat1.connection_O_metre := by
  unfold gc_handshake_admit at h
  by_cases hpn : get_peernum_of_enc_pk chat1 sender_enc_pk < 0 <;>
    simp only [hpn, if_true, if_false, ite_true, ite_false] at h <;>
    split_ifs at h <;>
    (rw [Option.some.injEq, Prod.mk.injEq] at h
     obtain ⟨h1, h2⟩ := h
     subst h1
     rfl)

theorem gcc_handle_recv_message_dup (gconn : GC_RecvConnection) (mid : Nat)
    (data : List Nat) (h : mid ≤ gconn.recv_message_id) :
    gcc_handle_recv_message gconn mid data = (0, gconn) := by
  unfold gcc_handle_recv_message
  rw [if_neg (by omega), if_pos h]

theorem gcc_handle_recv_message_gap (gconn : GC_RecvConnection) (mid : Nat)
    (data : List Nat) (h1 : gconn.recv_message_id + 1 < mid)
    (h2 : mid ≤ gconn.recv_message_id + GCC_BUFFER_SIZE) :
    gcc_handle_recv_message gconn mid data =
      (1, { gconn with recv_ary :=
              gconn.recv_ary.set (mid % GCC_BUFFER_SIZE) (some (mid, data)) }) := by
  unfold gcc_handle_recv_message
  rw [if_neg (by omega), if_neg (by omega), if_pos h2]

/-- C2: for a lossless packet from a handshaked peer, a duplicate message id
(at most the receiver's cursor) is answered with MESSAGE_ACK
(read_id = message id, request_id = 0) and the packet handler does not run;
a message id more than one past the cursor but within the 64-slot window is
buffered in slot id mod 64 and answered with MESSAGE_ACK
(read_id = 0, request_id = cursor + 1), again without running the handler. -/
theorem c2_lossless_receiver_acks (gconn : GC_RecvConnection) (ptype mid : Nat)
    (data : List Nat) (hhs : gconn.handshaked = true) :
    (mid ≤ gconn.recv_message_id →
      handle_gc_lossless_message gconn ptype mid data =
        ⟨0, gconn, [(mid, 0)], []⟩) ∧
    (gconn.recv_message_id + 1 < mid → mid ≤ gconn.recv_message_id + GCC_BUFFER_SIZE →
      handle_gc_lossless_message gconn ptype mid data =
        ⟨0, { gconn with recv_ary :=
                gconn.recv_ary.set (mid % GCC_BUFFER_SIZE) (some (mid, data)) },
          [(0, gconn.recv_message_id + 1)], []⟩) := by
  constructor
  · intro hd
    unfold handle_gc_lossless_message
    rw [if_neg (by simp [hhs]), gcc_handle_recv_message_dup gconn mid data hd]
    norm_num [gc_send_message_ack]
  · intro h1 h2
    unfold handle_gc_lossless_message
    rw [if_neg (by simp [hhs]), gcc_handle_recv_message_gap gconn mid data h1 h2]
    norm_num [gc_send_message_ack]

/-- Witness for C2 on a concrete connection with cursor 4: message id 3 is
acked as a duplicate with (3, 0); message id 7 is buffered in slot 7 and acked
with (0, 5). -/
theorem c2_lossless_receiver_acks_witness :
    handle_gc_lossless_message g0 GP_BROADCAST 3 [9] = ⟨0, g0, [(3, 0)], []⟩ ∧
    handle_gc_lossless_message g0 GP_BROADCAST 7 [9] =
      ⟨0, { g0 with recv_ary := g0.recv_ary.set (7 % GCC_BUFFER_SIZE) (some (7, [9])) },
        [(0, 5)], []⟩ :=
  ⟨(c2_lossless_receiver_acks g0 GP_BROADCAST 3 [9] rfl).1 (by decide),
   (c2_lossless_receiver_acks g0 GP_BROADCAST 7 [9] rfl).2 (by decide) (by decide)⟩

/-! ### C3 -/

/-- C3: counterexample to the claim that an incoming SHARED_STATE whose
version equals the cached version leaves the cached copy unchanged: chatC3
caches ssA at version 5 and receives a correctly signed, valid packet carrying
the different state ssB, also version 5 — the handler installs ssB. -/
theorem c3_equal_version_replaces_cached_state :
    pktB.state.version = chatC3.shared_state.version ∧
    pktB.state ≠ chatC3.shared_state ∧
    (handle_gc_shared_state chatC3 pktB).chat.shared_state = pktB.state := by
  decide

/-- C3 (amended): on a signature-valid, well-formed SHARED_STATE packet the
cached state is replaced whenever the incoming version is greater than or
equal to the cached version; only a strictly smaller incoming version leaves
the cached copy untouched. -/
theorem c3_version_rule (chat : GC_Chat) (packet : SharedStatePacket)
    (hsig : crypto_verify_shared_state packet.signature chat.chat_public_key.sig
      packet.state = true)
    (hval : validate_gc_shared_state packet.state = 0) :
    (chat.shared_state.version ≤ packet.state.version →
      (handle_gc_shared_state chat packet).chat.shared_state = packet.state ∧
      (handle_gc_shared_state chat packet).chat.shared_state_sig = packet.signature ∧
      (handle_gc_shared_state chat packet).result = 0) ∧
    (packet.state.version < chat.shared_state.version →
      (handle_gc_shared_state chat packet).chat = chat ∧
      (handle_gc_shared_state chat packet).result = 0) := by
  unfold handle_gc_shared_state
  split_ifs <;> (constructor <;> intro hx <;> simp_all) <;> try omega

/-- Witness for C3 (amended): a version-6 packet replaces chatC3's version-5
cache; a version-4 packet leaves it untouched. -/
theorem c3_version_rule_witness :
    ((handle_gc_shared_state chatC3 pktA6).chat.shared_state = pktA6.state ∧
      (handle_gc_shared_state chatC3 pktA6).chat.shared_state_sig = pktA6.signature ∧
      (handle_gc_shared_state chatC3 pktA6).result = 0) ∧
    ((handle_gc_shared_state chatC3 pktA4).chat = chatC3 ∧
      (handle_gc_shared_state chatC3 pktA4).result = 0) :=
  ⟨(c3_version_rule chatC3 pktA6 (by decide) (by decide)).1 (by decide),
   (c3_version_rule chatC3 pktA4 (by decide) (by decide)).2 (by decide)⟩

/-! ### C4 -/

/-- C4: counterexample to the claim that the new-connection counter is
incremented only by handshake requests that would add a new peer: chatC4
already holds a non-handshaked connection for the sender's key 5, the request
is accepted without adding any peer, and the counter is still incremented. -/
theorem c4_known_peer_request_increments_counter :
    (handle_gc_handshake_request chatC4 102 5 0 false false true true false).result = 0 ∧
    (handle_gc_handshake_request chatC4 102 5 0 false false true true false).new_peer_added
      = false ∧
    (handle_gc_handshake_request chatC4 102 5 0 false false true true false).chat.numpeers
      = chatC4.numpeers ∧
    (handle_gc_handshake_request chatC4 102 5 0 false false true
        true false).chat.connection_O_metre = chatC4.connection_O_metre + 1 := by
  decide

/-- C4 (amended): every inbound handshake request that passes the length,
connection-state and ban checks increments the new-connection counter —
whether or not it adds a new peer; once the counter has reached 10 every
further such request is dropped and block_handshakes is set; on each tick the
counter decrements at most once per second until it reaches zero, at which
point block_handshakes is cleared. -/
theorem c4_rate_limit (chat : GC_Chat) (length : Nat) (sender_enc_pk sender_sig_pk : Nat)
    (ip_banned sender_confirmed tcp_ok relay_ok jmis : Bool) (tm : Nat)
    (hlen : ENC_PUBLIC_KEY * 2 + SIG_PUBLIC_KEY + 6 ≤ length)
    (hstate : chat.connection_state ≠ CS_FAILED)
    (hban : ¬(0 < chat.shared_state.version ∧ ip_banned = true ∧
      ¬ mod_list_verify_sig_pk chat sender_sig_pk = true)) :
    (GC_NEW_PEER_CONNECTION_LIMIT ≤ chat.connection_O_metre →
      handle_gc_handshake_request chat length sender_enc_pk sender_sig_pk ip_banned
          sender_confirmed tcp_ok relay_ok jmis =
        ⟨-1, { chat with block_handshakes := true }, false⟩) ∧
    (chat.connection_O_metre < GC_NEW_PEER_CONNECTION_LIMIT →
      (handle_gc_handshake_request chat length sender_enc_pk sender_sig_pk ip_banned
          sender_confirmed tcp_ok relay_ok jmis).chat.connection_O_metre =
        chat.connection_O_metre + 1) ∧
    (chat.connection_O_metre = 0 → do_new_connection_cooldown chat tm = chat) ∧
    (chat.connection_O_metre ≠ 0 → chat.connection_cooldown_timer < tm →
      (do_new_connection_cooldown chat tm).connection_O_metre =
          chat.connection_O_metre - 1 ∧
        (do_new_connection_cooldown chat tm).connection_cooldown_timer = tm ∧
        ((do_new_connection_cooldown chat tm).connection_O_metre = 0 →
          (do_new_connection_cooldown chat tm).block_handshakes = false) ∧
        ((do_new_connection_cooldown chat tm).connection_O_metre ≠ 0 →
          (do_new_connection_cooldown chat tm).block_handshakes =
            chat.block_handshakes)) ∧
    (chat.connection_O_metre ≠ 0 → ¬ chat.connection_cooldown_timer < tm →
      do_new_connection_cooldown chat tm = chat) := by
  refine ⟨?_, ?_, ?_, ?_, ?_⟩
  · intro hm
    unfold handle_gc_handshake_request
    rw [if_neg (by omega), if_neg hstate, if_neg (by simpa using hban), if_pos hm]
  · intro hm
    unfold handle_gc_handshake_request
    rw [if_neg (by omega), if_neg hstate, if_neg (by simpa using hban),
      if_neg (by omega)]
    rcases hadm : gc_handshake_admit
        { chat with connection_O_metre := chat.connection_O_metre + 1 }
        sender_enc_pk sender_confirmed tcp_ok with _ | ⟨chat2, is_new⟩
    · simp [hadm]
    · have h2 := gc_handshake_admit_metre _ _ _ _ _ _ hadm
      simp only [hadm]
      split_ifs <;> simp_all
  · intro h0
    unfold do_new_connection_cooldown
    rw [if_pos h0]
  · intro h0 htm
    unfold do_new_connection_cooldown
    rw [if_neg h0, if_pos htm]
    refine ⟨rfl, rfl, ?_, ?_⟩ <;> intro hz <;> simp_all
  · intro h0 htm
    unfold do_new_connection_cooldown
    rw [if_neg h0, if_neg htm]

/-- Witness for C4 (amended): a chat at the limit drops the request and blocks
handshakes; chatC4 below the limit increments its counter; a zero counter
leaves the cooldown a no-op; a counter of 1 with an elapsed timer decrements to
zero and clears block_handshakes. -/
theorem c4_rate_limit_witness :
    (handle_gc_handshake_request chat10 102 5 0 false false true true false =
      ⟨-1, { chat10 with block_handshakes := true }, false⟩) ∧
    ((handle_gc_handshake_request chatC4 102 5 0 false false true
        true false).chat.connection_O_metre = chatC4.connection_O_metre + 1) ∧
    (do_new_connection_cooldown new_zeroed_chat 5 = new_zeroed_chat) ∧
    ((do_new_connection_cooldown chatMetre1 5).connection_O_metre =
        chatMetre1.connection_O_metre - 1 ∧
      (do_new_connection_cooldown chatMetre1 5).connection_cooldown_timer = 5 ∧
      ((do_new_connection_cooldown chatMetre1 5).connection_O_metre = 0 →
        (do_new_connection_cooldown chatMetre1 5).block_handshakes = false) ∧
      ((do_new_connection_cooldown chatMetre1 5).connection_O_metre ≠ 0 →
        (do_new_connection_cooldown chatMetre1 5).block_handshakes =
          chatMetre1.block_handshakes)) := by
  refine ⟨?_, ?_, ?_, ?_⟩
  · exact (c4_rate_limit chat10 102 5 0 false false true true false 5 (by decide)
      (by decide) (by decide)).1 (by decide)
  · exact (c4_rate_limit chatC4 102 5 0 false false true true false 5 (by decide)
      (by decide) (by decide)).2.1 (by decide)
  · exact (c4_rate_limit new_zeroed_chat 102 5 0 false false true true false 5 (by decide)
      (by decide) (by decide)).2.2.1 (by decide)
  · exact (c4_rate_limit chatMetre1 102 5 0 false false true true false 5 (by decide)
      (by decide) (by decide)).2.2.2.1 (by decide) (by decide)

/-! ### C9 -/

/-- C9: gc_send_message returns -1 exactly when the length exceeds the maximum
message size; -2 when, the length being admissible, the message is null or
empty; -3 when, additionally, the type is neither normal nor action; -4 when,
the first three checks passing, the caller's role is Observer or lower; -5
when, all checks passing, the broadcast send fails; and 0 on success. -/
theorem c9_gc_send_message_error_codes (chat : GC_Chat) (message : Option (List Nat))
    (length : Nat) (type_ : Nat) :
    (gc_send_message chat message length type_ = -1 ↔
      MAX_GC_MESSAGE_SIZE < length) ∧
    (gc_send_message chat message length type_ = -2 ↔
      length ≤ MAX_GC_MESSAGE_SIZE ∧ (message = none ∨ length = 0)) ∧
    (gc_send_message chat message length type_ = -3 ↔
      length ≤ MAX_GC_MESSAGE_SIZE ∧ message ≠ none ∧ length ≠ 0 ∧
        type_ ≠ GC_MESSAGE_TYPE_NORMAL ∧ type_ ≠ GC_MESSAGE_TYPE_ACTION) ∧
    (gc_send_message chat message length type_ = -4 ↔
      length ≤ MAX_GC_MESSAGE_SIZE ∧ message ≠ none ∧ length ≠ 0 ∧
        (type_ = GC_MESSAGE_TYPE_NORMAL ∨ type_ = GC_MESSAGE_TYPE_ACTION) ∧
        GR_OBSERVER ≤ (chat.group.getD 0 default).role) ∧
    (gc_send_message chat message length type_ = -5 ↔
      length ≤ MAX_GC_MESSAGE_SIZE ∧ message ≠ none ∧ length ≠ 0 ∧
        (type_ = GC_MESSAGE_TYPE_NORMAL ∨ type_ = GC_MESSAGE_TYPE_ACTION) ∧
        (chat.group.getD 0 default).role < GR_OBSERVER ∧
        send_gc_broadcast_message length = -1) ∧
    (gc_send_message chat message length type_ = 0 ↔
      length ≤ MAX_GC_MESSAGE_SIZE ∧ message ≠ none ∧ length ≠ 0 ∧
        (type_ = GC_MESSAGE_TYPE_NORMAL ∨ type_ = GC_MESSAGE_TYPE_ACTION) ∧
        (chat.group.getD 0 default).role < GR_OBSERVER ∧
        send_gc_broadcast_message length ≠ -1) := by
  unfold gc_send_message
  split_ifs <;>
    refine ⟨?_, ?_, ?_, ?_, ?_, ?_⟩ <;> constructor <;> intro hx <;> simp_all <;> omega

/-! ### C10 -/

/-- C10: whenever gc_set_topic returns a nonzero error code, the chat's topic
state — topic bytes, length, setter signing key, topic version, and detached
topic signature — is exactly what it was before the call. -/
theorem c10_gc_set_topic_atomicity (env : CryptoEnv) (chat : GC_Chat) (topic : List Nat)
    (h : (gc_set_topic env chat topic).1 ≠ 0) :
    (gc_set_topic env chat topic).2.1.topic_info.topic = chat.topic_info.topic ∧
    (gc_set_topic env chat topic).2.1.topic_info.length = chat.topic_info.length ∧
    (gc_set_topic env chat topic).2.1.topic_info.public_sig_key =
      chat.topic_info.public_sig_key ∧
    (gc_set_topic env chat topic).2.1.topic_info.version = chat.topic_info.version ∧
    (gc_set_topic env chat topic).2.1.topic_sig = chat.topic_sig := by
  unfold gc_set_topic at h ⊢
  split_ifs at h ⊢ <;> simp_all

/-- Witness for C10: an Observer calling gc_set_topic gets a nonzero code
(insufficient role) and every topic field is left untouched. -/
theorem c10_gc_set_topic_atomicity_witness :
    (gc_set_topic envOk chatObserver []).1 ≠ 0 ∧
    ((gc_set_topic envOk chatObserver []).2.1.topic_info.topic =
        chatObserver.topic_info.topic ∧
      (gc_set_topic envOk chatObserver []).2.1.topic_info.length =
        chatObserver.topic_info.length ∧
      (gc_set_topic envOk chatObserver []).2.1.topic_info.public_sig_key =
        chatObserver.topic_info.public_sig_key ∧
      (gc_set_topic envOk chatObserver []).2.1.topic_info.version =
        chatObserver.topic_info.version ∧
      (gc_set_topic envOk chatObserver []).2.1.topic_sig =
        chatObserver.topic_sig) :=
  ⟨by decide, c10_gc_set_topic_atomicity envOk chatObserver [] (by decide)⟩

/-! ### C8 -/

theorem gc_sym_mac_length (k n p : List Nat) :
    (gc_sym_mac k n p).length = crypto_box_MACBYTES := by
  simp [gc_sym_mac, crypto_box_MACBYTES]

theorem decrypt_encrypt (k n p : List Nat) :
    decrypt_data_symmetric k n (encrypt_data_symmetric k n p) = some p := by
  have hlen : (gc_sym_mac k n p).length = crypto_box_MACBYTES := gc_sym_mac_length k n p
  unfold decrypt_data_symmetric encrypt_data_symmetric
  have hdrop : (gc_sym_mac k n p ++ p).drop crypto_box_MACBYTES = p := by
    rw [← hlen, List.drop_left]
  have htake : (gc_sym_mac k n p ++ p).take crypto_box_MACBYTES = gc_sym_mac k n p := by
    rw [← hlen, List.take_left]
  rw [if_pos]
  · rw [hdrop]
  · refine ⟨?_, ?_⟩
    · rw [List.length_append, hlen]; omega
    · rw [htake, hdrop]

theorem remove_padding_spec (min_len t : Nat) (rest : List Nat) (ht : t ≠ 0)
    (hmin : min_len ≤ rest.length + 1) (pad : Nat) :
    remove_padding min_len (List.replicate pad 0 ++ (t :: rest)) = some (t :: rest) := by
  induction pad with
  | zero => simp [remove_padding, ht]
  | succ k ih =>
    rw [List.replicate_succ, List.cons_append]
    have hstep : remove_padding min_len (0 :: (List.replicate k 0 ++ t :: rest)) =
        if (List.replicate k 0 ++ t :: rest).length < min_len then none
        else remove_padding min_len (List.replicate k 0 ++ t :: rest) := by
      simp [remove_padding]
    rw [hstep, if_neg, ih]
    rw [List.length_append, List.length_replicate, List.length_cons]
    omega

theorem U64_to_bytes_length (n : Nat) : (U64_to_bytes n).length = 8 := by
  simp [U64_to_bytes]

theorem unwrap_group_packet_eq (shared_key : List Nat) (lossless : Bool)
    (packet plain : List Nat)
    (hdec : decrypt_data_symmetric shared_key
        ((packet.drop (1 + HASH_ID_BYTES + ENC_PUBLIC_KEY)).take crypto_box_NONCEBYTES)
        (packet.drop (1 + HASH_ID_BYTES + ENC_PUBLIC_KEY + crypto_box_NONCEBYTES)) =
      some plain) :
    unwrap_group_packet shared_key lossless packet =
      (if plain.length = 0 then none
       else
        match remove_padding (if lossless then 1 + MESSAGE_ID_BYTES else 1) plain with
        | none => none
        | some [] => none
        | some (ptype :: rest) =>
          if lossless then
            if rest.length < MESSAGE_ID_BYTES then none
            else some (ptype, bytes_to_U64 (rest.take MESSAGE_ID_BYTES),
              rest.drop MESSAGE_ID_BYTES)
          else some (ptype, 0, rest)) := by
  simp only [unwrap_group_packet]
  rw [hdec]

theorem bytes_to_U64_of_U64_to_bytes (n : Nat) (h : n < 2 ^ 64) :
    bytes_to_U64 (U64_to_bytes n) = n := by
  simp only [bytes_to_U64, U64_to_bytes, List.foldl]
  omega

/-- C8: decoding with unwrap_group_packet a packet produced by
wrap_group_packet under the same shared key returns exactly the original
inner packet type (any nonzero byte), the original message id for lossless
packets, and the original body, for every body whose padded and encrypted
size fits in the maximum packet size; the decoder recovers the padding length
by stripping leading zero bytes up to the first nonzero byte. -/
theorem c8_codec_roundtrip (shared_key self_pk nonce data : List Nat)
    (mid ptype chat_id_hash : Nat) (lossless : Bool)
    (hpk : self_pk.length = ENC_PUBLIC_KEY)
    (hnonce : nonce.length = crypto_box_NONCEBYTES)
    (hpt0 : ptype ≠ 0) (hptb : ptype < 256) (hmid : mid < 2 ^ 64)
    (hfit : data.length + GC_PACKET_PADDING_LENGTH data.length + crypto_box_MACBYTES + 1 +
      HASH_ID_BYTES + ENC_PUBLIC_KEY + crypto_box_NONCEBYTES ≤ MAX_GC_PACKET_SIZE) :
    (wrap_group_packet self_pk shared_key nonce MAX_GC_PACKET_SIZE data mid ptype
        chat_id_hash
        (if lossless then NET_PACKET_GC_LOSSLESS else NET_PACKET_GC_LOSSY)).bind
      (unwrap_group_packet shared_key lossless) =
    some (ptype, (if lossless then mid else 0), data) := by
  cases lossless with
  | false =>
    simp only [if_false, Bool.false_eq_true]
    unfold wrap_group_packet
    rw [if_neg (by omega), if_neg (by decide), Option.some_bind]
    set plain := List.replicate (GC_PACKET_PADDING_LENGTH data.length) 0 ++ [ptype] ++ data
      with hplain
    set ctext := encrypt_data_symmetric shared_key nonce plain with hc
    set packet := [NET_PACKET_GC_LOSSY] ++ U32_to_bytes chat_id_hash ++ self_pk ++ nonce ++
      ctext with hpacket
    have hdrop : packet.drop (1 + HASH_ID_BYTES + ENC_PUBLIC_KEY) = nonce ++ ctext := by
      rw [hpacket, List.append_assoc _ nonce ctext,
        show 1 + HASH_ID_BYTES + ENC_PUBLIC_KEY =
          ([NET_PACKET_GC_LOSSY] ++ U32_to_bytes chat_id_hash ++ self_pk).length from by
            simp [U32_to_bytes, hpk, HASH_ID_BYTES, ENC_PUBLIC_KEY],
        List.drop_left]
    have hdropc : packet.drop (1 + HASH_ID_BYTES + ENC_PUBLIC_KEY + crypto_box_NONCEBYTES) =
        ctext := by
      rw [hpacket,
        show 1 + HASH_ID_BYTES + ENC_PUBLIC_KEY + crypto_box_NONCEBYTES =
          ([NET_PACKET_GC_LOSSY] ++ U32_to_bytes chat_id_hash ++ self_pk ++ nonce).length
          from by
            simp [U32_to_bytes, hpk, hnonce, HASH_ID_BYTES, ENC_PUBLIC_KEY,
              crypto_box_NONCEBYTES],
        List.drop_left]
    have hdec : decrypt_data_symmetric shared_key
        ((packet.drop (1 + HASH_ID_BYTES + ENC_PUBLIC_KEY)).take crypto_box_NONCEBYTES)
        (packet.drop (1 + HASH_ID_BYTES + ENC_PUBLIC_KEY + crypto_box_NONCEBYTES)) =
        some plain := by
      rw [hdrop, hdropc, show (nonce ++ ctext).take crypto_box_NONCEBYTES = nonce from by
        rw [← hnonce, List.take_left], hc]
      exact decrypt_encrypt shared_key nonce plain
    rw [unwrap_group_packet_eq shared_key false packet plain hdec]
    have hplain2 : plain = List.replicate (GC_PACKET_PADDING_LENGTH data.length) 0 ++
        (ptype :: data) := by
      rw [hplain, List.append_assoc]
      rfl
    have hplen : ¬ plain.length = 0 := by
      rw [hplain2, List.length_append]
      simp
    have hrp : remove_padding 1 plain = some (ptype :: data) := by
      rw [hplain2]
      exact remove_padding_spec 1 ptype data hpt0 (by omega) _
    rw [if_neg hplen]
    simp only [Bool.false_eq_true, if_false, hrp]
  | true =>
    simp only [if_true]
    unfold wrap_group_packet
    rw [if_neg (by omega), if_pos rfl, Option.some_bind]
    set plain := List.replicate (GC_PACKET_PADDING_LENGTH data.length) 0 ++
      (ptype :: U64_to_bytes mid) ++ data with hplain
    set ctext := encrypt_data_symmetric shared_key nonce plain with hc
    set packet := [NET_PACKET_GC_LOSSLESS] ++ U32_to_bytes chat_id_hash ++ self_pk ++
      nonce ++ ctext with hpacket
    have hdrop : packet.drop (1 + HASH_ID_BYTES + ENC_PUBLIC_KEY) = nonce ++ ctext := by
      rw [hpacket, List.append_assoc _ nonce ctext,
        show 1 + HASH_ID_BYTES + ENC_PUBLIC_KEY =
          ([NET_PACKET_GC_LOSSLESS] ++ U32_to_bytes chat_id_hash ++ self_pk).length from by
            simp [U32_to_bytes, hpk, HASH_ID_BYTES, ENC_PUBLIC_KEY],
        List.drop_left]
    have hdropc : packet.drop (1 + HASH_ID_BYTES + ENC_PUBLIC_KEY + crypto_box_NONCEBYTES) =
        ctext := by
      rw [hpacket,
        show 1 + HASH_ID_BYTES + ENC_PUBLIC_KEY + crypto_box_NONCEBYTES =
          ([NET_PACKET_GC_LOSSLESS] ++ U32_to_bytes chat_id_hash ++ self_pk ++ nonce).length
          from by
            simp [U32_to_bytes, hpk, hnonce, HASH_ID_BYTES, ENC_PUBLIC_KEY,
              crypto_box_NONCEBYTES],
        List.drop_left]
    have hdec : decrypt_data_symmetric shared_key
        ((packet.drop (1 + HASH_ID_BYTES + ENC_PUBLIC_KEY)).take crypto_box_NONCEBYTES)
        (packet.drop (1 + HASH_ID_BYTES + ENC_PUBLIC_KEY + crypto_box_NONCEBYTES)) =
        some plain := by
      rw [hdrop, hdropc, show (nonce ++ ctext).take crypto_box_NONCEBYTES = nonce from by
        rw [← hnonce, List.take_left], hc]
      exact decrypt_encrypt shared_key nonce plain
    rw [unwrap_group_packet_eq shared_key true packet plain hdec]
    have hplain2 : plain = List.replicate (GC_PACKET_PADDING_LENGTH data.length) 0 ++
        (ptype :: (U64_to_bytes mid ++ data)) := by
      rw [hplain, List.append_assoc, List.cons_append]
    have hplen : ¬ plain.length = 0 := by
      rw [hplain2, List.length_append]
      simp
    have hrp : remove_padding (1 + MESSAGE_ID_BYTES) plain =
        some (ptype :: (U64_to_bytes mid ++ data)) := by
      rw [hplain2]
      refine remove_padding_spec _ ptype _ hpt0 ?_ _
      rw [List.length_append, U64_to_bytes_length]
      simp [MESSAGE_ID_BYTES]
    rw [if_neg hplen]
    simp only [if_true, hrp]
    have hlen8 : ¬ (U64_to_bytes mid ++ data).length < MESSAGE_ID_BYTES := by
      rw [List.length_append, U64_to_bytes_length]
      simp [MESSAGE_ID_BYTES]
    have htake8 : (U64_to_bytes mid ++ data).take MESSAGE_ID_BYTES = U64_to_bytes mid := by
      rw [show MESSAGE_ID_BYTES = (U64_to_bytes mid).length from
        (U64_to_bytes_length mid).symm, List.take_left]
    have hdrop8 : (U64_to_bytes mid ++ data).drop MESSAGE_ID_BYTES = data := by
      rw [show MESSAGE_ID_BYTES = (U64_to_bytes mid).length from
        (U64_to_bytes_length mid).symm, List.drop_left]
    rw [if_neg hlen8, htake8, hdrop8, bytes_to_U64_of_U64_to_bytes mid hmid]

/-! ### C5 -/

/-- C5: counterexample to the claimed broadcast order SET_MOD(remove), new
moderator list, new shared state: removing the only moderator (signing key 9,
no sanctions issued by it, topic set by someone else) from chatC5 succeeds but
emits exactly two broadcasts — the new shared state first, then
SET_MOD(remove) — and no moderator-list broadcast at all (event tags: 0 =
shared state, 1 = mod list, 4 = SET_MOD). -/
theorem c5_removal_broadcast_order_counterexample :
    (founder_gc_set_moderator envOk chatC5 gconnC5 false).1 = 0 ∧
    ((founder_gc_set_moderator envOk chatC5 gconnC5 false).2.2.map event_kind) = [0, 4] := by
  decide

theorem mod_list_remove_entry_eq (chat : GC_Chat) (key : Nat)
    (hmem : key ∈ chat.moderation.mod_list) :
    mod_list_remove_entry chat key =
      (0, { chat with moderation :=
              { chat.moderation with mod_list := chat.moderation.mod_list.erase key } }) := by
  unfold mod_list_remove_entry
  rw [if_pos hmem]

theorem update_gc_sanctions_list_none (chat : GC_Chat) (key : Nat)
    (h : (chat.moderation.sanctions.filter (fun s => s.public_sig_key = key)).length = 0) :
    update_gc_sanctions_list chat key = (0, chat, []) := by
  unfold update_gc_sanctions_list sanctions_list_replace_sig
  simp [h]

theorem update_gc_sanctions_list_some (chat : GC_Chat) (key : Nat)
    (h : (chat.moderation.sanctions.filter
      (fun s => s.public_sig_key = key)).length ≠ 0) :
    ∃ chatS : GC_Chat,
      update_gc_sanctions_list chat key =
        (((chat.moderation.sanctions.filter
            (fun s => s.public_sig_key = key)).length : Int), chatS,
          [GCBroadcastEvent.sanctionsList chatS.moderation.sanctions
            chatS.moderation.sanctions_creds]) ∧
      chatS.group = chat.group ∧ chatS.gcc = chat.gcc ∧
      chatS.topic_info = chat.topic_info ∧ chatS.topic_sig = chat.topic_sig ∧
      chatS.shared_state = chat.shared_state ∧
      chatS.shared_state_sig = chat.shared_state_sig ∧
      chatS.moderation.mod_list = chat.moderation.mod_list ∧
      chatS.self_public_key = chat.self_public_key ∧
      chatS.self_secret_key = chat.self_secret_key ∧
      chatS.chat_public_key = chat.chat_public_key ∧
      chatS.chat_secret_key = chat.chat_secret_key := by
  unfold update_gc_sanctions_list sanctions_list_replace_sig
  simp only [if_neg h]
  exact ⟨_, rfl, rfl, rfl, rfl, rfl, rfl, rfl, rfl, rfl, rfl, rfl, rfl⟩

theorem update_gc_topic_skip (env : CryptoEnv) (chat : GC_Chat) (key : Nat)
    (h : key ≠ chat.topic_info.public_sig_key) :
    update_gc_topic env chat key = (0, chat, []) := by
  unfold update_gc_topic
  rw [if_pos h]

theorem update_gc_topic_resign (env : CryptoEnv) (chat : GC_Chat) (key : Nat)
    (h : key = chat.topic_info.public_sig_key)
    (hlen : ¬ MAX_GC_TOPIC_SIZE < chat.topic_info.topic.length)
    (hrole : ¬ GR_MODERATOR < (chat.group.getD 0 default).role)
    (htop : env.topic_sign_ok = true) :
    ∃ ti1 sig1,
      update_gc_topic env chat key =
        (0, { chat with topic_info := ti1, topic_sig := sig1 },
          [GCBroadcastEvent.topic ti1 sig1]) := by
  unfold update_gc_topic gc_set_topic
  rw [if_neg (not_not.mpr h), if_neg hlen, if_neg hrole, if_pos htop]
  exact ⟨_, _, rfl⟩

theorem sign_gc_shared_state_eq (env : CryptoEnv) (chat : GC_Chat)
    (hrole2 : ¬ ((chat.group.getD 0 default).role ≠ GR_FOUNDER))
    (hver : chat.shared_state.version ≠ UINT32_MAX)
    (hsig : env.ss_sign_ok = true) :
    sign_gc_shared_state env chat =
      (0, { chat with
              shared_state :=
                { chat.shared_state with version := chat.shared_state.version + 1 },
              shared_state_sig :=
                ⟨chat.chat_secret_key.sig,
                  { chat.shared_state with version := chat.shared_state.version + 1 }⟩ }) := by
  unfold sign_gc_shared_state crypto_sign_shared_state
  rw [if_neg hrole2, if_pos hver, if_pos hsig]

/-- C5 (amended): a successful founder removal of a moderator first re-issues
the sanctions signed by the removed key (broadcasting the updated sanctions
list when there were any), then re-signs and re-broadcasts the topic when the
removed key was the topic setter, then broadcasts the new shared state with
the version incremented, and last broadcasts SET_MOD(remove); it never
broadcasts the moderator list (tags: 0 shared state, 2 sanctions, 3 topic,
4 SET_MOD). -/
theorem c5_removal_rebroadcast_order (env : CryptoEnv) (chat : GC_Chat)
    (gconn : GC_Connection)
    (hrole : (chat.group.getD 0 default).role = GR_FOUNDER)
    (hmem : gconn.addr_public_key.sig ∈ chat.moderation.mod_list)
    (hver : chat.shared_state.version ≠ UINT32_MAX)
    (hlen : chat.topic_info.topic.length ≤ MAX_GC_TOPIC_SIZE)
    (hsig : env.ss_sign_ok = true) (htop : env.topic_sign_ok = true) :
    (founder_gc_set_moderator env chat gconn false).1 = 0 ∧
    (founder_gc_set_moderator env chat gconn false).2.1.shared_state.version =
      chat.shared_state.version + 1 ∧
    ((founder_gc_set_moderator env chat gconn false).2.2.map event_kind) =
      ((if (chat.moderation.sanctions.filter
            (fun s => s.public_sig_key = gconn.addr_public_key.sig)).length = 0
          then [] else [2]) ++
        (if gconn.addr_public_key.sig = chat.topic_info.public_sig_key
          then [3] else []) ++ [0, 4]) ∧
    (∀ l, GCBroadcastEvent.modList l ∉ (founder_gc_set_moderator env chat gconn false).2.2) ∧
    GCBroadcastEvent.setMod false gconn.addr_public_key.sig ∈
      (founder_gc_set_moderator env chat gconn false).2.2 ∧
    GCBroadcastEvent.sharedState
        (founder_gc_set_moderator env chat gconn false).2.1.shared_state
        (founder_gc_set_moderator env chat gconn false).2.1.shared_state_sig ∈
      (founder_gc_set_moderator env chat gconn false).2.2 := by
  have hlen' : ¬ MAX_GC_TOPIC_SIZE < chat.topic_info.topic.length := by omega
  have hrole' : ¬ GR_MODERATOR < (chat.group.getD 0 default).role := by
    rw [hrole]
    decide
  have hrole2 : ¬ ((chat.group.getD 0 default).role ≠ GR_FOUNDER) := not_not_intro hrole
  have hrem := mod_list_remove_entry_eq chat gconn.addr_public_key.sig hmem
  set chatR : GC_Chat := { chat with moderation :=
    { chat.moderation with
        mod_list := chat.moderation.mod_list.erase gconn.addr_public_key.sig } } with hchatR
  by_cases hsan : (chat.moderation.sanctions.filter
      (fun s => s.public_sig_key = gconn.addr_public_key.sig)).length = 0
  · have hsanU := update_gc_sanctions_list_none chatR gconn.addr_public_key.sig hsan
    by_cases hset : gconn.addr_public_key.sig = chat.topic_info.public_sig_key
    · obtain ⟨ti1, sig1, htopU⟩ :=
        update_gc_topic_resign env chatR gconn.addr_public_key.sig hset hlen' hrole' htop
      have hsign := sign_gc_shared_state_eq env
        { chatR with
            topic_info := ti1, topic_sig := sig1,
            shared_state := { chatR.shared_state with
              mod_list_hash := mod_list_make_hash chatR.moderation.mod_list } }
        hrole2 hver hsig
      have hb : ¬(false = true) := by decide
      have hm1 : ¬((0 : Int) = -1) := by decide
      unfold founder_gc_set_moderator
      simp only [hrem, hsanU, htopU, hsign, if_neg hm1, if_neg hrole2, if_neg hb,
        broadcast_gc_shared_state, send_gc_set_mod]
      have hsan2 := hsan
      rw [hset] at hsan2
      simp [event_kind, hsan, hsan2, hset, hchatR]
    · have htopU := update_gc_topic_skip env chatR gconn.addr_public_key.sig hset
      have hsign := sign_gc_shared_state_eq env
        { chatR with
            shared_state := { chatR.shared_state with
              mod_list_hash := mod_list_make_hash chatR.moderation.mod_list } }
        hrole2 hver hsig
      have hb : ¬(false = true) := by decide
      have hm1 : ¬((0 : Int) = -1) := by decide
      unfold founder_gc_set_moderator
      simp only [hrem, hsanU, htopU, hsign, if_neg hm1, if_neg hrole2, if_neg hb,
        broadcast_gc_shared_state, send_gc_set_mod]
      simp [event_kind, hsan, hset, hchatR]
  · obtain ⟨chatS, hsanU, hg, hgc, hti, hts, hss, hsss, hml, hspk, hssk, hcpk, hcsk⟩ :=
      update_gc_sanctions_list_some chatR gconn.addr_public_key.sig hsan
    have hne : ((chat.moderation.sanctions.filter
        (fun s => s.public_sig_key = gconn.addr_public_key.sig)).length : Int) ≠ -1 := by
      omega
    by_cases hset : gconn.addr_public_key.sig = chat.topic_info.public_sig_key
    · obtain ⟨ti1, sig1, htopU⟩ :=
        update_gc_topic_resign env chatS gconn.addr_public_key.sig (by rw [hti]; exact hset)
          (by rw [hti]; exact hlen') (by rw [hg]; exact hrole') htop
      have hsign := sign_gc_shared_state_eq env
        { chatS with
            topic_info := ti1, topic_sig := sig1,
            shared_state := { chatS.shared_state with
              mod_list_hash := mod_list_make_hash chatS.moderation.mod_list } }
        (by simpa [hg] using hrole2) (by simpa [hss] using hver) hsig
      have hb : ¬(false = true) := by decide
      have hm1 : ¬((0 : Int) = -1) := by decide
      unfold founder_gc_set_moderator
      simp only [hrem, hsanU, htopU, hsign, if_neg hm1, if_neg hrole2, if_neg hb,
        if_neg hne, broadcast_gc_shared_state, send_gc_set_mod]
      have hsan2 := hsan
      rw [hset] at hsan2
      simp [event_kind, hsan, hsan2, hset, hss, hchatR]
    · have htopU := update_gc_topic_skip env chatS gconn.addr_public_key.sig
        (by rw [hti]; exact hset)
      have hsign := sign_gc_shared_state_eq env
        { chatS with
            shared_state := { chatS.shared_state with
              mod_list_hash := mod_list_make_hash chatS.moderation.mod_list } }
        (by simpa [hg] using hrole2) (by simpa [hss] using hver) hsig
      have hb : ¬(false = true) := by decide
      have hm1 : ¬((0 : Int) = -1) := by decide
      unfold founder_gc_set_moderator
      simp only [hrem, hsanU, htopU, hsign, if_neg hm1, if_neg hrole2, if_neg hb,
        if_neg hne, broadcast_gc_shared_state, send_gc_set_mod]
      simp [event_kind, hsan, hset, hss, hchatR]

/-- Witness for C5 (amended) at the concrete chatC5/gconnC5 instance. -/
theorem c5_removal_rebroadcast_order_witness :
    (founder_gc_set_moderator envOk chatC5 gconnC5 false).1 = 0 ∧
    (founder_gc_set_moderator envOk chatC5 gconnC5 false).2.1.shared_state.version =
      chatC5.shared_state.version + 1 ∧
    ((founder_gc_set_moderator envOk chatC5 gconnC5 false).2.2.map event_kind) =
      ((if (chatC5.moderation.sanctions.filter
            (fun s => s.public_sig_key = gconnC5.addr_public_key.sig)).length = 0
          then [] else [2]) ++
        (if gconnC5.addr_public_key.sig = chatC5.topic_info.public_sig_key
          then [3] else []) ++ [0, 4]) ∧
    (∀ l, GCBroadcastEvent.modList l ∉
      (founder_gc_set_moderator envOk chatC5 gconnC5 false).2.2) ∧
    GCBroadcastEvent.setMod false gconnC5.addr_public_key.sig ∈
      (founder_gc_set_moderator envOk chatC5 gconnC5 false).2.2 ∧
    GCBroadcastEvent.sharedState
        (founder_gc_set_moderator envOk chatC5 gconnC5 false).2.1.shared_state
        (founder_gc_set_moderator envOk chatC5 gconnC5 false).2.1.shared_state_sig ∈
      (founder_gc_set_moderator envOk chatC5 gconnC5 false).2.2 :=
  c5_removal_rebroadcast_order envOk chatC5 gconnC5 (by decide) (by decide) (by decide)
    (by decide) rfl rfl

/-! ### C7 -/

/-- C7: a gc_group_add call with a valid name, valid self peer info, a valid
privacy state and succeeding external calls succeeds, and the resulting chat
has shared-state version 1, an empty moderator list, topic equal to the
single space (byte 32) with length 1 and topic version 1, self role Founder,
and exactly one peer. -/
theorem c7_gc_group_add_postconditions (env : CryptoEnv) (chat_keys self_keys : ExtKey)
    (privacy_state : Nat) (group_name : Option (List Nat)) (group_name_length : Nat)
    (peer_info : GC_SelfPeerInfo) (peer_id : Nat) (friend_add_ok : Bool)
    (h1 : group_name_length ≤ MAX_GC_GROUP_NAME_SIZE) (h2 : group_name_length ≠ 0)
    (h3 : group_name ≠ none) (h4 : is_self_peer_info_valid peer_info = true)
    (h5 : privacy_state < GI_INVALID) (h6 : env.ss_sign_ok = true)
    (h7 : env.topic_sign_ok = true) (h8 : friend_add_ok = true) :
    (gc_group_add env chat_keys self_keys privacy_state group_name group_name_length
        peer_info peer_id friend_add_ok).1 = 0 ∧
    (gc_group_add env chat_keys self_keys privacy_state group_name group_name_length
        peer_info peer_id friend_add_ok).2.shared_state.version = 1 ∧
    (gc_group_add env chat_keys self_keys privacy_state group_name group_name_length
        peer_info peer_id friend_add_ok).2.moderation.mod_list = [] ∧
    (gc_group_add env chat_keys self_keys privacy_state group_name group_name_length
        peer_info peer_id friend_add_ok).2.topic_info.topic = [32] ∧
    (gc_group_add env chat_keys self_keys privacy_state group_name group_name_length
        peer_info peer_id friend_add_ok).2.topic_info.length = 1 ∧
    (gc_group_add env chat_keys self_keys privacy_state group_name group_name_length
        peer_info peer_id friend_add_ok).2.topic_info.version = 1 ∧
    ((gc_group_add env chat_keys self_keys privacy_state group_name group_name_length
        peer_info peer_id friend_add_ok).2.group.getD 0 default).role = GR_FOUNDER ∧
    (gc_group_add env chat_keys self_keys privacy_state group_name group_name_length
        peer_info peer_id friend_add_ok).2.numpeers = 1 := by
  unfold gc_group_add
  rw [if_neg (by omega), if_neg (by simp [h2, h3]), if_neg (by simp [h4]),
    if_neg (by omega)]
  simp only [create_new_group, new_zeroed_chat, zeroSharedState, zeroTopicInfo, peer_add,
    get_peernum_of_enc_pk, List.findIdx?_nil, init_gc_shared_state, sign_gc_shared_state,
    init_gc_sanctions_creds, sanctions_list_make_creds, gc_set_topic, is_public_chat,
    crypto_sign_shared_state, crypto_sign_topic, h6, h7]
  norm_num [GR_FOUNDER, GR_MODERATOR, UINT32_MAX, MAX_GC_TOPIC_SIZE]
  split_ifs <;> simp_all

/-- Witness for C7: creating a public group named the four bytes of Test with
nick byte 97 and status 0. -/
theorem c7_gc_group_add_postconditions_witness :
    (gc_group_add envOk ⟨11, 12⟩ ⟨1, 2⟩ GI_PUBLIC (some [84, 101, 115, 116]) 4
        ⟨some [97], 1, 0⟩ 42 true).1 = 0 ∧
    (gc_group_add envOk ⟨11, 12⟩ ⟨1, 2⟩ GI_PUBLIC (some [84, 101, 115, 116]) 4
        ⟨some [97], 1, 0⟩ 42 true).2.shared_state.version = 1 ∧
    (gc_group_add envOk ⟨11, 12⟩ ⟨1, 2⟩ GI_PUBLIC (some [84, 101, 115, 116]) 4
        ⟨some [97], 1, 0⟩ 42 true).2.moderation.mod_list = [] ∧
    (gc_group_add envOk ⟨11, 12⟩ ⟨1, 2⟩ GI_PUBLIC (some [84, 101, 115, 116]) 4
        ⟨some [97], 1, 0⟩ 42 true).2.topic_info.topic = [32] ∧
    (gc_group_add envOk ⟨11, 12⟩ ⟨1, 2⟩ GI_PUBLIC (some [84, 101, 115, 116]) 4
        ⟨some [97], 1, 0⟩ 42 true).2.topic_info.length = 1 ∧
    (gc_group_add envOk ⟨11, 12⟩ ⟨1, 2⟩ GI_PUBLIC (some [84, 101, 115, 116]) 4
        ⟨some [97], 1, 0⟩ 42 true).2.topic_info.version = 1 ∧
    ((gc_group_add envOk ⟨11, 12⟩ ⟨1, 2⟩ GI_PUBLIC (some [84, 101, 115, 116]) 4
        ⟨some [97], 1, 0⟩ 42 true).2.group.getD 0 default).role = GR_FOUNDER ∧
    (gc_group_add envOk ⟨11, 12⟩ ⟨1, 2⟩ GI_PUBLIC (some [84, 101, 115, 116]) 4
        ⟨some [97], 1, 0⟩ 42 true).2.numpeers = 1 :=
  c7_gc_group_add_postconditions envOk ⟨11, 12⟩ ⟨1, 2⟩ GI_PUBLIC
    (some [84, 101, 115, 116]) 4 ⟨some [97], 1, 0⟩ 42 true (by decide) (by decide)
    (by decide) (by decide) (by decide) rfl rfl rfl

/-- Witness for C8: a lossless BROADCAST packet with message id 5 and body
[1, 2, 3] round-trips under shared key [7]. -/
theorem c8_codec_roundtrip_witness :
    (wrap_group_packet (List.replicate 32 9) [7] (List.replicate 24 0) MAX_GC_PACKET_SIZE
        [1, 2, 3] 5 GP_BROADCAST 0
        (if true then NET_PACKET_GC_LOSSLESS else NET_PACKET_GC_LOSSY)).bind
      (unwrap_group_packet [7] true) =
    some (GP_BROADCAST, (if true then 5 else 0), [1, 2, 3]) :=
  c8_codec_roundtrip [7] (List.replicate 32 9) (List.replicate 24 0) [1, 2, 3] 5
    GP_BROADCAST 0 true (by decide) (by decide) (by decide) (by decide) (by decide)
    (by decide)

end GC
